import Mathlib

/-!
release-tests: the condition-polling helpers of `pkg/olm` and `pkg/operator`.

A shallow embedding of

* `pkg/olm/subscription.go`: `WaitForSubscriptionState`,
  `WaitForClusterServiceVersionState`, the predicates `IsCSVSucceeded` and
  `IsSubscriptionInstalledCSVPresent`, and the two workflows
  `SubscribeAndWaitForOperatorToBeReady` and
  `UptadeSubscriptionAndWaitForOperatorToBeReady`;
* `pkg/operator/tektonaddons.go`: `WaitForTektonAddonState`,
  `IsTektonAddonReady` and the deletion poll of `TektonAddonCRDelete`.

Conventions of the embedding.

* A Go pointer `*T` is an `Option T`; `none` is the nil pointer.
* A Go `error` is an `Option GoError`; `none` is the nil error.
* A Go call that may not return to its caller (nil dereference, failed test
  assertion) yields an `Option`; `none` means that control never comes back.
* The cluster is explicit state: a `World` is the chronological log of the
  client calls and sleeps performed so far, and the answer of a client call is
  the one scheduled for its call index.
* `time.Duration` is a natural number of nanoseconds.
-/

namespace ReleaseTests

/-! ## Data model -/

namespace v1alpha1

/-- The v1alpha1.SubscriptionSpec fields set by the `Subscription` builder. -/
structure SubscriptionSpec where
  CatalogSource : String
  CatalogSourceNamespace : String
  Package : String
  Channel : String
  InstallPlanApproval : String
  deriving DecidableEq, Repr

/-- The v1alpha1.SubscriptionStatus field read by this package. -/
structure SubscriptionStatus where
  InstalledCSV : String
  deriving DecidableEq, Repr

/-- A v1alpha1.Subscription; `Spec` is a pointer in Go. -/
structure Subscription where
  Kind : String
  APIVersion : String
  Namespace : String
  Name : String
  Spec : Option SubscriptionSpec
  Status : SubscriptionStatus
  deriving DecidableEq, Repr

/-- The v1alpha1.ClusterServiceVersionStatus field read by this package. -/
structure ClusterServiceVersionStatus where
  Phase : String
  deriving DecidableEq, Repr

/-- A v1alpha1.ClusterServiceVersion. -/
structure ClusterServiceVersion where
  Name : String
  Status : ClusterServiceVersionStatus
  deriving DecidableEq, Repr

/-- One status condition of a TektonAddon (`Type_` is the Go field `Type`). -/
structure Condition where
  Type_ : String
  Status : String
  deriving DecidableEq, Repr

/-- The status of a TektonAddon. -/
structure TektonAddonStatus where
  Conditions : List Condition
  deriving DecidableEq, Repr

/-- A v1alpha1.TektonAddon (cluster scoped). -/
structure TektonAddon where
  Name : String
  Status : TektonAddonStatus
  deriving DecidableEq, Repr

end v1alpha1

/-- The metav1.StatusReason values that matter for classifying a fetch error. -/
inductive StatusReason
  | NotFound
  | Forbidden
  | AlreadyExists
  | Unknown
  deriving DecidableEq, Repr

/-- An operand of a format string. -/
inductive FmtArg
  | str (s : String)
  | subscription (s : Option v1alpha1.Subscription)
  | csv (c : Option v1alpha1.ClusterServiceVersion)
  | addon (a : Option v1alpha1.TektonAddon)
  deriving DecidableEq, Repr

/-- A non-nil Go `error` value.

* `status`: an API status error (what the cluster client returns);
* `waitTimeout`: the sentinel `wait.ErrWaitTimeout`;
* `message`: an error made by `errors.New` or by `fmt.Errorf` without `%w`;
* `wrapf`: `errors.Wrapf(cause, format, args...)`, or `fmt.Errorf` whose format
  ends in `%w` applied to `cause`; the format and its operands are kept
  unrendered. -/
inductive GoError
  | status (reason : StatusReason) (msg : String)
  | waitTimeout
  | message (msg : String)
  | wrapf (format : String) (args : List FmtArg) (cause : GoError)
  deriving DecidableEq, Repr

/-- Is the error, or an error that it wraps, an API status error whose reason is
NotFound? This is the search that `apierrs.IsNotFound` makes along the chain of
wrapped errors. -/
def GoError.isNotFound : GoError → Bool
  | .status .NotFound _ => true
  | .wrapf _ _ c => c.isNotFound
  | _ => false

/-- The classification `apierrs.IsNotFound`: the error, or an error that it
wraps, is an API status error whose reason is NotFound; the nil error is not. -/
def IsNotFound : Option GoError → Bool
  | some e => e.isNotFound
  | none => false

/-- What a client call returns: an object pointer and an error. -/
abbrev GetResult (T : Type) := Option T × Option GoError

/-! ## The cluster as explicit state -/

/-- The resource kinds fetched by the polls. -/
inductive Kind
  | subscription
  | clusterServiceVersion
  | tektonAddon
  deriving DecidableEq, Repr

/-- An observable action of the test process. -/
inductive Event
  | create (s : v1alpha1.Subscription)
  | update (s : v1alpha1.Subscription)
  | get (kind : Kind) (ns name : String)
  | sleep (d : Nat)
  deriving DecidableEq, Repr

/-- Chronological log of the actions performed so far (oldest first). -/
abbrev World := List Event

/-- Is the event a Get of kind `k`? -/
def Event.isGet (k : Kind) : Event → Bool
  | .get k1 _ _ => k1 == k
  | _ => false

/-- Is the event a Create? -/
def Event.isCreate : Event → Bool
  | .create _ => true
  | _ => false

/-- Is the event an Update? -/
def Event.isUpdate : Event → Bool
  | .update _ => true
  | _ => false

/-- Is the event a sleep? -/
def Event.isSleep : Event → Bool
  | .sleep _ => true
  | _ => false

/-- Number of Get calls of kind `k` made so far. -/
def World.gets (w : World) (k : Kind) : Nat := w.countP (Event.isGet k)

/-- Total time slept so far. -/
def World.slept : World → Nat
  | [] => 0
  | .sleep d :: w => d + World.slept w
  | _ :: w => World.slept w

/-- Number of sleeps so far. -/
def World.sleeps (w : World) : Nat := w.countP Event.isSleep

/-- The OLM client set `cs.OLM.OperatorsV1alpha1()`: for each kind of call, the
answer scheduled for the n-th call of that kind (n counts from 0). -/
structure Clients where
  SubscriptionsCreate : Nat → v1alpha1.Subscription → GetResult v1alpha1.Subscription
  SubscriptionsUpdate : Nat → v1alpha1.Subscription → GetResult v1alpha1.Subscription
  SubscriptionsGet : Nat → String → String → GetResult v1alpha1.Subscription
  ClusterServiceVersionsGet : Nat → String → String → GetResult v1alpha1.ClusterServiceVersion

/-- The client `operatorv1alpha1.TektonAddonInterface`: the answer scheduled
for the n-th Get of a name. -/
structure TektonAddonInterface where
  Get : Nat → String → GetResult v1alpha1.TektonAddon

/-- The call `cs.OLM.OperatorsV1alpha1().Subscriptions(ns).Get(name, ...)`. -/
def Clients.getSubscription (cs : Clients) (ns name : String) (w : World) :
    GetResult v1alpha1.Subscription × World :=
  (cs.SubscriptionsGet (w.gets .subscription) ns name, w ++ [Event.get .subscription ns name])

/-- The call `cs.OLM.OperatorsV1alpha1().ClusterServiceVersions(ns).Get(name, ...)`. -/
def Clients.getClusterServiceVersion (cs : Clients) (ns name : String) (w : World) :
    GetResult v1alpha1.ClusterServiceVersion × World :=
  (cs.ClusterServiceVersionsGet (w.gets .clusterServiceVersion) ns name,
    w ++ [Event.get .clusterServiceVersion ns name])

/-- The call `cs.OLM.OperatorsV1alpha1().Subscriptions(ns).Create(s)`. -/
def Clients.createSubscriptionCall (cs : Clients) (s : v1alpha1.Subscription) (w : World) :
    GetResult v1alpha1.Subscription × World :=
  (cs.SubscriptionsCreate (w.countP Event.isCreate) s, w ++ [Event.create s])

/-- The call `cs.OLM.OperatorsV1alpha1().Subscriptions(ns).Update(s)`. -/
def Clients.updateSubscriptionCall (cs : Clients) (s : v1alpha1.Subscription) (w : World) :
    GetResult v1alpha1.Subscription × World :=
  (cs.SubscriptionsUpdate (w.countP Event.isUpdate) s, w ++ [Event.update s])

/-- The call `clients.Get(ctx, name, ...)` on the TektonAddon client. -/
def TektonAddonInterface.get (clients : TektonAddonInterface) (name : String) (w : World) :
    GetResult v1alpha1.TektonAddon × World :=
  (clients.Get (w.gets .tektonAddon) name, w ++ [Event.get .tektonAddon "" name])

/-! ## Durations and constants -/

/-- The duration time.Second, in nanoseconds. -/
def Second : Nat := 1000000000

/-- The duration time.Minute. -/
def Minute : Nat := 60 * Second

/-- Interval specifies the time between two polls (package olm). -/
def Interval : Nat := 10 * Second

/-- Timeout specifies the timeout for the function PollImmediate (package olm). -/
def Timeout : Nat := 5 * Minute

/-- The namespace of the operators. -/
def OperatorsNamespace : String := "openshift-operators"

/-- The namespace of the catalog sources. -/
def OLMNamespace : String := "openshift-marketplace"

/-- APIRetry defines the frequency at which the k8s api is checked (package config). -/
def APIRetry : Nat := Second * 5

/-- APITimeout defines the amount of time spent querying the k8s api (package config). -/
def APITimeout : Nat := Minute * 20

/-! ## The poller -/

/-- A `wait.ConditionFunc` closing over an environment `ε` of captured
variables: from the world and the captured variables it yields `(done, err)`
and the new world and variables, or `none` when it panics. -/
abbrev ConditionFunc (ε : Type) := World × ε → Option ((Bool × Option GoError) × (World × ε))

/-- Modelled from the spec: the sentinel wait.ErrWaitTimeout of
k8s.io/apimachinery, which is not under src/; the spec's timeout error kind. -/
def ErrWaitTimeout : GoError := GoError.waitTimeout

/-- Modelled from the spec: the repeated-poll loop behind wait.PollImmediate
(k8s.io/apimachinery is not under src/), as section 4.1 words it. Each round
sleeps `interval`, probes and evaluates: a fatal error stops the loop with that
error, done stops it with nil, anything else goes on. The loop stops with the
timeout error once the accumulated sleep exceeds `timeout`. The first argument
counts the interval ticks still due within the timeout, so with no tick left
the next sleep is the one that passes the deadline. -/
def WaitFor {ε : Type} (interval : Nat) (fn : ConditionFunc ε) :
    Nat → World × ε → Option (Option GoError × (World × ε))
  | 0, (w, env) => some (some ErrWaitTimeout, (w ++ [Event.sleep interval], env))
  | n + 1, (w, env) =>
    match fn (w ++ [Event.sleep interval], env) with
    | none => none
    | some ((_, some e), s) => some (some e, s)
    | some ((true, none), s) => some (none, s)
    | some ((false, none), s) => WaitFor interval fn n s

/-- Modelled from the spec: wait.PollImmediate(interval, timeout, condition)
(k8s.io/apimachinery is not under src/), the immediate-first-probe policy of the
spec (4.1): one probe before the interval timer starts, then the repeated-poll
loop with the `timeout / interval` ticks that fit within the timeout. -/
def PollImmediate {ε : Type} (interval timeout : Nat) (fn : ConditionFunc ε) (s : World × ε) :
    Option (Option GoError × (World × ε)) :=
  match fn s with
  | none => none
  | some ((_, some e), s1) => some (some e, s1)
  | some ((true, none), s1) => some (none, s1)
  | some ((false, none), s1) => WaitFor interval fn (timeout / interval) s1

/-! ## pkg/olm/subscription.go -/

/-- Subscription helps you to subscribe openshift-pipelines-operator-rh. The
kind, API version and approval are the constants v1alpha1.SubscriptionKind,
v1alpha1.SubscriptionCRDAPIVersion and v1alpha1.ApprovalAutomatic. -/
def Subscription (subscriptionName channel catalogsource : String) : v1alpha1.Subscription :=
  { Kind := "Subscription"
    APIVersion := "operators.coreos.com/v1alpha1"
    Namespace := OperatorsNamespace
    Name := subscriptionName
    Spec := some
      { CatalogSource := catalogsource
        CatalogSourceNamespace := OLMNamespace
        Package := subscriptionName
        Channel := channel
        InstallPlanApproval := "Automatic" }
    Status := { InstalledCSV := "" } }

/-- Modelled from the spec: assert.NoError of pkg/assert, which is not under
src/; an assertion wrapper turns a non-nil error into a test failure signal, so
control comes back to the caller only when the error is nil. -/
def assert_NoError (err : Option GoError) (_description : String) : Option Unit :=
  match err with
  | some _ => none
  | none => some ()

/-- The predicate `IsCSVSucceeded`: reads `c.Status.Phase` (a nil `c` panics)
and hands the fetch error back as its own error. -/
def IsCSVSucceeded (c : Option v1alpha1.ClusterServiceVersion) (err : Option GoError) :
    Option (Bool × Option GoError) :=
  match c with
  | none => none
  | some c => some (c.Status.Phase == "Succeeded", err)

/-- The predicate `IsSubscriptionInstalledCSVPresent`: reads
`s.Status.InstalledCSV` (a nil `s` panics) and hands the fetch error back as
its own error. -/
def IsSubscriptionInstalledCSVPresent (s : Option v1alpha1.Subscription) (err : Option GoError) :
    Option (Bool × Option GoError) :=
  match s with
  | none => none
  | some s => some (s.Status.InstalledCSV != "" && s.Status.InstalledCSV != "<none>", err)

/-- The function `WaitForSubscriptionState`: the closure assigns the outer
`lastState` and `err` on every probe. -/
def WaitForSubscriptionState (cs : Clients) (name ns : String)
    (inState : Option v1alpha1.Subscription → Option GoError → Option (Bool × Option GoError))
    (w : World) : Option (GetResult v1alpha1.Subscription × World) :=
  match PollImmediate Interval Timeout
      (fun (s : World × GetResult v1alpha1.Subscription) =>
        let r := cs.getSubscription ns name s.1
        match inState r.1.1 r.1.2 with
        | none => none
        | some res => some (res, (r.2, (r.1.1, r.1.2))))
      (w, (none, none)) with
  | none => none
  | some (some waitErr, (w1, (lastState, _))) =>
    some ((lastState, some (GoError.wrapf "subscription %s is not in desired state, got: %+v"
      [FmtArg.str name, FmtArg.subscription lastState] waitErr)), w1)
  | some (none, (w1, (lastState, _))) => some ((lastState, none), w1)

/-- The function `WaitForClusterServiceVersionState`: the closure assigns the
outer `lastState` and `err` on every probe. -/
def WaitForClusterServiceVersionState (cs : Clients) (name ns : String)
    (inState : Option v1alpha1.ClusterServiceVersion → Option GoError →
      Option (Bool × Option GoError))
    (w : World) : Option (GetResult v1alpha1.ClusterServiceVersion × World) :=
  match PollImmediate Interval Timeout
      (fun (s : World × GetResult v1alpha1.ClusterServiceVersion) =>
        let r := cs.getClusterServiceVersion ns name s.1
        match inState r.1.1 r.1.2 with
        | none => none
        | some res => some (res, (r.2, (r.1.1, r.1.2))))
      (w, (none, none)) with
  | none => none
  | some (some waitErr, (w1, (lastState, _))) =>
    some ((lastState, some (GoError.wrapf
      "clusterserviceversion %s is not in desired state, got: %+v"
      [FmtArg.str name, FmtArg.csv lastState] waitErr)), w1)
  | some (none, (w1, (lastState, _))) => some ((lastState, none), w1)

/-- The function `getSubcription`: one Get in the operators namespace, then
assert.NoError on its error. -/
def getSubcription (cs : Clients) (name : String) (w : World) :
    Option (Option v1alpha1.Subscription × World) :=
  let r := cs.getSubscription OperatorsNamespace name w
  match assert_NoError r.1.2 "Unable to retrive Subscription: [%s] from namespace [%s]\n" with
  | none => none
  | some _ => some (r.1.1, r.2)

/-- The function `createSubscription`. -/
def createSubscription (cs : Clients) (name channel catalogsource : String) (w : World) :
    GetResult v1alpha1.Subscription × World :=
  let r := cs.createSubscriptionCall (Subscription name channel catalogsource) w
  match r.1.2 with
  | some err => ((none, some err), r.2)
  | none => ((r.1.1, none), r.2)

/-- The function `UpdateSubscription`: `subscription.Spec.Channel = channel`
dereferences both the subscription and its `Spec` pointer. -/
def UpdateSubscription (cs : Clients) (name channel : String) (w : World) :
    Option (GetResult v1alpha1.Subscription × World) :=
  match getSubcription cs name w with
  | none => none
  | some (none, _) => none
  | some (some subscription, w1) =>
    match subscription.Spec with
    | none => none
    | some spec =>
      let r := cs.updateSubscriptionCall
        { subscription with Spec := some { spec with Channel := channel } } w1
      match r.1.2 with
      | some err => some ((none, some err), r.2)
      | none => some ((r.1.1, none), r.2)

/-- The function `SubscribeAndWaitForOperatorToBeReady`. -/
def SubscribeAndWaitForOperatorToBeReady (cs : Clients)
    (subscriptionName channel catalogsource : String) (w : World) :
    Option (GetResult v1alpha1.Subscription × World) :=
  match createSubscription cs subscriptionName channel catalogsource w with
  | ((_, some err), w1) => some ((none, some err), w1)
  | ((_, none), w1) =>
    match WaitForSubscriptionState cs subscriptionName OperatorsNamespace
        IsSubscriptionInstalledCSVPresent w1 with
    | none => none
    | some ((_, some err), w2) => some ((none, some err), w2)
    | some ((none, none), _) => none
    | some ((some subs, none), w2) =>
      let csvName := subs.Status.InstalledCSV
      match WaitForClusterServiceVersionState cs csvName OperatorsNamespace IsCSVSucceeded w2 with
      | none => none
      | some ((_, some err), w3) => some ((none, some err), w3)
      | some ((_, none), w3) => some ((some subs, none), w3)

/-- The function `UptadeSubscriptionAndWaitForOperatorToBeReady`. -/
def UptadeSubscriptionAndWaitForOperatorToBeReady (cs : Clients)
    (subscriptionName channel : String) (w : World) :
    Option (GetResult v1alpha1.Subscription × World) :=
  match UpdateSubscription cs subscriptionName channel w with
  | none => none
  | some ((_, some err), w1) => some ((none, some err), w1)
  | some ((_, none), w1) =>
    match WaitForSubscriptionState cs subscriptionName OperatorsNamespace
        IsSubscriptionInstalledCSVPresent w1 with
    | none => none
    | some ((_, some err), w2) => some ((none, some err), w2)
    | some ((none, none), _) => none
    | some ((some subs, none), w2) =>
      let csvName := subs.Status.InstalledCSV
      match WaitForClusterServiceVersionState cs csvName OperatorsNamespace IsCSVSucceeded w2 with
      | none => none
      | some ((_, some err), w3) => some ((none, some err), w3)
      | some ((_, none), w3) => some ((some subs, none), w3)

/-! ## pkg/operator/tektonaddons.go -/

/-- The function `WaitForTektonAddonState`. Inside the closure
`lastState, err := clients.Get(...)` declares new variables, so the outer
`lastState` (the captured variable, the second component of the poll state) is
never assigned; the emitted log span has no effect on the result. -/
def WaitForTektonAddonState (clients : TektonAddonInterface) (name : String)
    (inState : Option v1alpha1.TektonAddon → Option GoError → Option (Bool × Option GoError))
    (w : World) : Option (GetResult v1alpha1.TektonAddon × World) :=
  match PollImmediate APIRetry APITimeout
      (fun (s : World × Option v1alpha1.TektonAddon) =>
        let r := clients.get name s.1
        match inState r.1.1 r.1.2 with
        | none => none
        | some res => some (res, (r.2, s.2)))
      (w, none) with
  | none => none
  | some (some waitErr, (w1, lastState)) =>
    some ((lastState, some (GoError.wrapf "tektonaddon %s is not in desired state, got: %+v: %w"
      [FmtArg.str name, FmtArg.addon lastState] waitErr)), w1)
  | some (none, (w1, lastState)) => some ((lastState, none), w1)

/-- The predicate `IsTektonAddonReady`: `s.Status.IsReady()` reads the status of
`s` (a nil `s` panics) and the fetch error is handed back as its own error.
The status aggregate `IsReady` belongs to the operator API, outside this
repository, and is a parameter. -/
def IsTektonAddonReady (IsReady : v1alpha1.TektonAddonStatus → Bool)
    (s : Option v1alpha1.TektonAddon) (err : Option GoError) : Option (Bool × Option GoError) :=
  match s with
  | none => none
  | some s => some (IsReady s.Status, err)

/-- The condition closure polled by `TektonAddonCRDelete`: one Get, done when
its error is a not-found error, any other error handed back. -/
def TektonAddonCRDelete_condition (clients : TektonAddonInterface) (name : String) :
    ConditionFunc Unit :=
  fun s =>
    let r := clients.get name s.1
    if IsNotFound r.1.2 then some ((true, none), (r.2, s.2))
    else some ((false, r.1.2), (r.2, s.2))

/-- The wait of `TektonAddonCRDelete`:
`wait.PollImmediate(config.APIRetry, config.APITimeout, ...)`; returns the
poll error and the world. -/
def TektonAddonCRDelete_poll (clients : TektonAddonInterface) (name : String) (w : World) :
    Option (Option GoError × World) :=
  match PollImmediate APIRetry APITimeout (TektonAddonCRDelete_condition clients name) (w, ()) with
  | none => none
  | some (waitErr, (w1, _)) => some (waitErr, w1)

/-- ResourceNames holds names of various resources (package config). -/
structure ResourceNames where
  TektonPipeline : String
  TektonTrigger : String
  TektonDashboard : String
  TektonAddon : String
  TektonConfig : String
  Namespace : String
  TargetNamespace : String
  deriving DecidableEq, Repr

/-- Modelled from the spec: wait.Poll(interval, timeout, condition)
(k8s.io/apimachinery is not under src/), the policy without an immediate first
probe of the spec (4.1): the classic repeated-poll loop, sleep `interval`,
probe, evaluate, with the `timeout / interval` ticks that fit within the
timeout. -/
def Poll {ε : Type} (interval timeout : Nat) (fn : ConditionFunc ε) (s : World × ε) :
    Option (Option GoError × (World × ε)) :=
  WaitFor interval fn (timeout / interval) s

/-- Modelled from the spec: assert.FailOnError of pkg/assert, which is not under
src/; an assertion wrapper turns a non-nil error into a test failure signal, so
control comes back to the caller only when the error is nil. -/
def assert_FailOnError (err : Option GoError) : Option Unit :=
  match err with
  | some _ => none
  | none => some ()

/-- EnsureTektonAddonExists: one Get, then a poll whose closure assigns the outer
`ks` and `err` on every probe, keeps waiting on a not-found error, hands any
other error back and is done when the Get succeeds; the poll's error replaces
`err`. The source comment says that it creates the addon when it does not
exist, but the body only Gets: no Create call is made. The log line printed
while waiting has no effect on the result. -/
def EnsureTektonAddonExists (clients : TektonAddonInterface) (names : ResourceNames)
    (w : World) : Option (GetResult v1alpha1.TektonAddon × World) :=
  let r := clients.get names.TektonAddon w
  match Poll APIRetry APITimeout
      (fun (s : World × GetResult v1alpha1.TektonAddon) =>
        let g := clients.get names.TektonAddon s.1
        match g.1.2 with
        | some e =>
          if IsNotFound (some e) then some ((false, none), (g.2, (g.1.1, g.1.2)))
          else some ((false, some e), (g.2, (g.1.1, g.1.2)))
        | none => some ((true, none), (g.2, (g.1.1, g.1.2))))
      (r.2, (r.1.1, r.1.2)) with
  | none => none
  | some (err, (w1, (ks, _))) => some ((ks, err), w1)

/-- The loop over `cr.Status.Conditions` in the poll body of
`EnsureTektonAddonsStatusInstalled`: the first condition `ac` with
`ac.Type != "InstallSucceeded" && ac.Status != "True"` makes the body return
not done; when no condition is of that sort the body returns done. -/
def EnsureTektonAddonsStatusInstalled_loop : List v1alpha1.Condition → Bool × Option GoError
  | [] => (true, none)
  | ac :: rest =>
    if ac.Type_ != "InstallSucceeded" && ac.Status != "True" then (false, none)
    else EnsureTektonAddonsStatusInstalled_loop rest

/-- The condition closure polled by `EnsureTektonAddonsStatusInstalled`: refresh
the addon with `EnsureTektonAddonExists`, fail the scenario on its error, then
run the loop over the conditions of the addon (a nil addon panics). -/
def EnsureTektonAddonsStatusInstalled_condition (clients : TektonAddonInterface)
    (names : ResourceNames) : ConditionFunc Unit :=
  fun s =>
    match EnsureTektonAddonExists clients names s.1 with
    | none => none
    | some ((cr, err), w1) =>
      match assert_FailOnError err with
      | none => none
      | some _ =>
        match cr with
        | none => none
        | some cr => some (EnsureTektonAddonsStatusInstalled_loop cr.Status.Conditions, (w1, s.2))

/-- The function `EnsureTektonAddonsStatusInstalled`: poll the condition above
and fail the scenario on the poll's error; returns the world it leaves. -/
def EnsureTektonAddonsStatusInstalled (clients : TektonAddonInterface) (names : ResourceNames)
    (w : World) : Option World :=
  match PollImmediate APIRetry APITimeout
      (EnsureTektonAddonsStatusInstalled_condition clients names) (w, ()) with
  | none => none
  | some (err, (w1, _)) =>
    match assert_FailOnError err with
    | none => none
    | some _ => some w1

/-! ## Auxiliary definitions for the proofs -/

/-- The shape shared by the poll closures: one Get of kind `k`, whose answer is
`fetch` at the call index, judged by `inState`; `upd` says how the captured
variables take the answer. -/
def probeCond {T ε : Type} (k : Kind) (ns name : String) (fetch : Nat → GetResult T)
    (inState : Option T → Option GoError → Option (Bool × Option GoError))
    (upd : GetResult T → ε → ε) : ConditionFunc ε :=
  fun s =>
    match inState (fetch (World.gets s.1 k)).1 (fetch (World.gets s.1 k)).2 with
    | none => none
    | some res => some (res, (s.1 ++ [Event.get k ns name], upd (fetch (World.gets s.1 k)) s.2))

/-- The events of `j` interval ticks: a sleep followed by the probe `ev`, `j` times. -/
def ticksLog (ev : Event) (interval : Nat) : Nat → List Event
  | 0 => []
  | j + 1 => Event.sleep interval :: ev :: ticksLog ev interval j

/-- The captured variables after `j` probes whose call indices start at `n0`. -/
def envAfter {T ε : Type} (upd : GetResult T → ε → ε) (fetch : Nat → GetResult T) :
    Nat → Nat → ε → ε
  | _, 0, env => env
  | n0, j + 1, env => envAfter upd fetch (n0 + 1) j (upd (fetch n0) env)

/-! ## Concrete scenarios -/

/-- Scenario B: a readiness aggregate that looks for a Ready condition with status True. -/
def scenarioB_IsReady (s : v1alpha1.TektonAddonStatus) : Bool :=
  s.Conditions.any fun c => c.Type_ == "Ready" && c.Status == "True"

/-- Scenario B: an addon whose Ready condition is False. -/
def scenarioB_addon : v1alpha1.TektonAddon :=
  { Name := "addon", Status := { Conditions := [{ Type_ := "Ready", Status := "False" }] } }

/-- Scenario B: every Get answers with the addon that is not ready. -/
def scenarioB_clients : TektonAddonInterface :=
  { Get := fun _ _ => (some scenarioB_addon, none) }

/-- A not-found API error. -/
def errNotFound : GoError := GoError.status StatusReason.NotFound "not found"

/-- A permission-denied API error. -/
def errForbidden : GoError := GoError.status StatusReason.Forbidden "permission denied"

/-- The empty object that a Get hands back together with an error. -/
def csvEmpty : v1alpha1.ClusterServiceVersion := { Name := "", Status := { Phase := "" } }

/-- A CSV that is still installing. -/
def csvInstalling : v1alpha1.ClusterServiceVersion :=
  { Name := "csv", Status := { Phase := "Installing" } }

/-- A CSV whose phase is Succeeded. -/
def csvSucceeded : v1alpha1.ClusterServiceVersion :=
  { Name := "csv", Status := { Phase := "Succeeded" } }

/-- A subscription whose installed CSV is `csv`. -/
def subInstalled : v1alpha1.Subscription :=
  { Kind := "Subscription", APIVersion := "operators.coreos.com/v1alpha1",
    Namespace := OperatorsNamespace, Name := "sub", Spec := none,
    Status := { InstalledCSV := "csv" } }

/-- Scenario A as the claim words it: CSV Gets 1 to 3 answer not-found, Get 4
answers with the Succeeded CSV. -/
def scenarioA_clients : Clients :=
  { SubscriptionsCreate := fun _ s => (some s, none)
    SubscriptionsUpdate := fun _ s => (some s, none)
    SubscriptionsGet := fun _ _ _ => (some subInstalled, none)
    ClusterServiceVersionsGet := fun n _ _ =>
      if n < 3 then (some csvEmpty, some errNotFound) else (some csvSucceeded, none) }

/-- Scenario A with fetches that succeed: CSV Gets 1 to 3 answer with a CSV that
is still installing, Get 4 answers with the Succeeded CSV. -/
def installing_clients : Clients :=
  { SubscriptionsCreate := fun _ s => (some s, none)
    SubscriptionsUpdate := fun _ s => (some s, none)
    SubscriptionsGet := fun _ _ _ => (some subInstalled, none)
    ClusterServiceVersionsGet := fun n _ _ =>
      if n < 3 then (some csvInstalling, none) else (some csvSucceeded, none) }

/-- Scenario C: the first Get of the addon answers permission denied. -/
def scenarioC_clients : TektonAddonInterface :=
  { Get := fun _ _ => (none, some errForbidden) }

/-- Every Get of the addon answers not-found: the addon is gone. -/
def absent_clients : TektonAddonInterface :=
  { Get := fun _ _ => (none, some errNotFound) }

/-- Every Get of a subscription or of a CSV answers permission denied. -/
def forbidden_clients : Clients :=
  { SubscriptionsCreate := fun _ s => (some s, none)
    SubscriptionsUpdate := fun _ s => (some s, none)
    SubscriptionsGet := fun _ _ _ => (some subInstalled, some errForbidden)
    ClusterServiceVersionsGet := fun _ _ _ => (some csvEmpty, some errForbidden) }

/-- A subscription whose installed CSV is not known yet. -/
def subPending : v1alpha1.Subscription :=
  { Kind := "Subscription", APIVersion := "operators.coreos.com/v1alpha1",
    Namespace := OperatorsNamespace, Name := "sub", Spec := none,
    Status := { InstalledCSV := "" } }

/-- Gets 1 and 2 succeed on objects that are not in the awaited state, every
later Get answers permission denied. -/
def flaky_clients : Clients :=
  { SubscriptionsCreate := fun _ s => (some s, none)
    SubscriptionsUpdate := fun _ s => (some s, none)
    SubscriptionsGet := fun n _ _ =>
      if n < 2 then (some subPending, none) else (some subPending, some errForbidden)
    ClusterServiceVersionsGet := fun n _ _ =>
      if n < 2 then (some csvInstalling, none) else (some csvEmpty, some errForbidden) }

/-- Every Get succeeds on an object that never reaches the awaited state. -/
def pending_clients : Clients :=
  { SubscriptionsCreate := fun _ s => (some s, none)
    SubscriptionsUpdate := fun _ s => (some s, none)
    SubscriptionsGet := fun _ _ _ => (some subPending, none)
    ClusterServiceVersionsGet := fun _ _ _ => (some csvInstalling, none) }

/-- A predicate that is done at once, whatever it is shown. -/
def alwaysDone {T : Type} (_s : Option T) (_err : Option GoError) :
    Option (Bool × Option GoError) :=
  some (true, none)

/-- The two polling stages shared, line for line, by the two workflows: the
subscription poll and then the poll of the CSV that the subscription names. -/
def pollStages (cs : Clients) (subscriptionName : String) (w1 : World) :
    Option (GetResult v1alpha1.Subscription × World) :=
  match WaitForSubscriptionState cs subscriptionName OperatorsNamespace
      IsSubscriptionInstalledCSVPresent w1 with
  | none => none
  | some ((_, some err), w2) => some ((none, some err), w2)
  | some ((none, none), _) => none
  | some ((some subs, none), w2) =>
    let csvName := subs.Status.InstalledCSV
    match WaitForClusterServiceVersionState cs csvName OperatorsNamespace IsCSVSucceeded w2 with
    | none => none
    | some ((_, some err), w3) => some ((none, some err), w3)
    | some ((_, none), w3) => some ((some subs, none), w3)

/-- A subscription as the cluster reports it once its CSV `csv` is installed. -/
def subReady : v1alpha1.Subscription :=
  { Subscription "sub" "stable" "catalog" with Status := { InstalledCSV := "csv" } }

/-- A healthy cluster: Create and Update succeed, the subscription names its
CSV at once and that CSV has succeeded. -/
def ready_clients : Clients :=
  { SubscriptionsCreate := fun _ s => (some s, none)
    SubscriptionsUpdate := fun _ s => (some s, none)
    SubscriptionsGet := fun _ _ _ => (some subReady, none)
    ClusterServiceVersionsGet := fun _ _ _ => (some csvSucceeded, none) }

/-- A cluster that refuses Create and Update with permission denied. -/
def readonly_clients : Clients :=
  { SubscriptionsCreate := fun _ _ => (none, some errForbidden)
    SubscriptionsUpdate := fun _ _ => (none, some errForbidden)
    SubscriptionsGet := fun _ _ _ => (some subReady, none)
    ClusterServiceVersionsGet := fun _ _ _ => (some csvSucceeded, none) }

/-- The subscription `subReady` after its channel has been set to `beta`. -/
def subBeta : v1alpha1.Subscription :=
  { subReady with
    Spec := some
      { CatalogSource := "catalog"
        CatalogSourceNamespace := OLMNamespace
        Package := "sub"
        Channel := "beta"
        InstallPlanApproval := "Automatic" } }

/-- The resource names of a scenario whose addon is called `addon`. -/
def addonNames : ResourceNames :=
  { TektonPipeline := "pipeline", TektonTrigger := "trigger", TektonDashboard := "dashboard",
    TektonAddon := "addon", TektonConfig := "config", Namespace := "",
    TargetNamespace := "openshift-pipelines" }

/-- An addon whose install has failed: its InstallSucceeded condition is False. -/
def addonInstallFailed : v1alpha1.TektonAddon :=
  { Name := "addon",
    Status := { Conditions := [{ Type_ := "InstallSucceeded", Status := "False" }] } }

/-- An addon that has no status condition yet. -/
def addonNoConditions : v1alpha1.TektonAddon :=
  { Name := "addon", Status := { Conditions := [] } }

/-- Every Get answers with the addon whose install has failed. -/
def installFailed_clients : TektonAddonInterface :=
  { Get := fun _ _ => (some addonInstallFailed, none) }

/-- Every Get answers with the addon that has no condition. -/
def noConditions_clients : TektonAddonInterface :=
  { Get := fun _ _ => (some addonNoConditions, none) }

/-- A predicate whose own fatal error is the timeout sentinel. -/
def sentinelFatal {T : Type} (_s : Option T) (_err : Option GoError) :
    Option (Bool × Option GoError) :=
  some (false, some ErrWaitTimeout)

/-- Every Get of the addon answers with a not-found error wrapped by a caller. -/
def wrappedNotFound_clients : TektonAddonInterface :=
  { Get := fun _ _ => (none, some (GoError.wrapf "get addon: %w" [] errNotFound)) }

/-- The judgement that the closure of `EnsureTektonAddonExists` passes on the
outcome of its Get. -/
def existsState (_s : Option v1alpha1.TektonAddon) (err : Option GoError) :
    Option (Bool × Option GoError) :=
  match err with
  | some e => if IsNotFound (some e) then some (false, none) else some (false, some e)
  | none => some (true, none)

/-! ## Lemmas on the log -/

theorem gets_append (w v : World) (k : Kind) :
    World.gets (w ++ v) k = World.gets w k + World.gets v k := by
  simp [World.gets, List.countP_append]

theorem gets_sleep_one (d : Nat) (k : Kind) : World.gets [Event.sleep d] k = 0 := by
  simp [World.gets, Event.isGet]

theorem gets_get_one (k : Kind) (ns name : String) : World.gets [Event.get k ns name] k = 1 := by
  simp [World.gets, Event.isGet]

theorem gets_ticksLog (k : Kind) (ns name : String) (interval j : Nat) :
    World.gets (ticksLog (Event.get k ns name) interval j) k = j := by
  induction j with
  | zero => simp [ticksLog, World.gets]
  | succ j ih =>
    have h : World.gets (ticksLog (Event.get k ns name) interval (j + 1)) k
        = World.gets (ticksLog (Event.get k ns name) interval j) k + 1 := by
      simp [ticksLog, World.gets, Event.isGet]
    rw [h, ih]

theorem slept_append (w v : World) : World.slept (w ++ v) = World.slept w + World.slept v := by
  induction w with
  | nil => simp [World.slept]
  | cons e w ih =>
    cases e <;> simp [World.slept, ih, Nat.add_assoc]

theorem slept_ticksLog (k : Kind) (ns name : String) (interval j : Nat) :
    World.slept (ticksLog (Event.get k ns name) interval j) = j * interval := by
  induction j with
  | zero => simp [ticksLog, World.slept]
  | succ j ih =>
    simp [ticksLog, World.slept, ih, Nat.succ_mul, Nat.add_comm]

theorem sleeps_append (w v : World) : World.sleeps (w ++ v) = World.sleeps w + World.sleeps v := by
  simp [World.sleeps, List.countP_append]

theorem sleeps_ticksLog (k : Kind) (ns name : String) (interval j : Nat) :
    World.sleeps (ticksLog (Event.get k ns name) interval j) = j := by
  induction j with
  | zero => simp [ticksLog, World.sleeps]
  | succ j ih =>
    have h : World.sleeps (ticksLog (Event.get k ns name) interval (j + 1))
        = World.sleeps (ticksLog (Event.get k ns name) interval j) + 1 := by
      simp [ticksLog, World.sleeps, Event.isSleep]
    rw [h, ih]

theorem envAfter_store {T : Type} (fetch : Nat → GetResult T) (n0 j : Nat) (env : GetResult T) :
    envAfter (fun r _ => r) fetch n0 (j + 1) env = fetch (n0 + j) := by
  induction j generalizing n0 env with
  | zero => simp [envAfter]
  | succ j ih =>
    rw [envAfter, ih]
    congr 1
    omega

theorem envAfter_keep {T ε : Type} (fetch : Nat → GetResult T) (n0 j : Nat) (env : ε) :
    envAfter (fun _ e => e) fetch n0 j env = env := by
  induction j generalizing n0 env with
  | zero => simp [envAfter]
  | succ j ih => rw [envAfter, ih]

/-! ## Lemmas on the poller -/

section Poller

variable {T ε : Type} (k : Kind) (ns name : String) (fetch : Nat → GetResult T)
  (inState : Option T → Option GoError → Option (Bool × Option GoError))
  (upd : GetResult T → ε → ε) (interval : Nat)

theorem probeCond_eval (w : World) (env : ε) (res : Bool × Option GoError)
    (h : inState (fetch (World.gets w k)).1 (fetch (World.gets w k)).2 = some res) :
    probeCond k ns name fetch inState upd (w ++ [Event.sleep interval], env)
      = some (res, (w ++ [Event.sleep interval, Event.get k ns name],
          upd (fetch (World.gets w k)) env)) := by
  have hg : World.gets (w ++ [Event.sleep interval]) k = World.gets w k := by
    rw [gets_append, gets_sleep_one]; rfl
  simp only [probeCond, hg, h]
  simp

theorem probeCond_panic (w : World) (env : ε)
    (h : inState (fetch (World.gets w k)).1 (fetch (World.gets w k)).2 = none) :
    probeCond k ns name fetch inState upd (w ++ [Event.sleep interval], env) = none := by
  have hg : World.gets (w ++ [Event.sleep interval]) k = World.gets w k := by
    rw [gets_append, gets_sleep_one]; rfl
  simp only [probeCond, hg, h]

theorem gets_tick (w : World) :
    World.gets (w ++ [Event.sleep interval, Event.get k ns name]) k = World.gets w k + 1 := by
  rw [gets_append]
  have : World.gets [Event.sleep interval, Event.get k ns name] k = 1 := by
    simp [World.gets, Event.isGet]
  rw [this]

/-- The loop stops at the first probe that is done or fatal, with that probe's
error (nil when it is done). -/
theorem WaitFor_stop (j n : Nat) (w : World) (env : ε) (d : Bool) (fe : Option GoError)
    (hj : j < n)
    (hwait : ∀ i, i < j →
      inState (fetch (World.gets w k + i)).1 (fetch (World.gets w k + i)).2 = some (false, none))
    (hstop : inState (fetch (World.gets w k + j)).1 (fetch (World.gets w k + j)).2 = some (d, fe))
    (hd : d = true ∨ fe ≠ none) :
    WaitFor interval (probeCond k ns name fetch inState upd) n (w, env)
      = some (fe, (w ++ ticksLog (Event.get k ns name) interval (j + 1),
          envAfter upd fetch (World.gets w k) (j + 1) env)) := by
  induction j generalizing n w env with
  | zero =>
    obtain ⟨n, rfl⟩ : ∃ m, n = m + 1 := ⟨n - 1, by omega⟩
    have hp := probeCond_eval k ns name fetch inState upd interval w env (d, fe)
      (by simpa using hstop)
    rw [WaitFor, hp]
    cases fe with
    | some e => simp [ticksLog, envAfter]
    | none =>
      cases d with
      | true => simp [ticksLog, envAfter]
      | false => simp at hd
  | succ j ih =>
    obtain ⟨n, rfl⟩ : ∃ m, n = m + 1 := ⟨n - 1, by omega⟩
    have h0 := hwait 0 (by omega)
    have hp := probeCond_eval k ns name fetch inState upd interval w env (false, none)
      (by simpa using h0)
    rw [WaitFor, hp]
    simp only
    have hg := gets_tick k ns name interval w
    rw [ih n (w ++ [Event.sleep interval, Event.get k ns name]) (upd (fetch (World.gets w k)) env)
      (by omega)
      (by intro i hi; rw [hg]; have := hwait (i + 1) (by omega); rw [← this]; congr 3 <;> omega)
      (by rw [hg, ← hstop]; congr 3 <;> omega)]
    rw [hg]
    simp [ticksLog, envAfter]

/-- With every probe not done and not fatal, the loop uses up its ticks and ends
with the timeout error after one more sleep. -/
theorem WaitFor_timeout (n : Nat) (w : World) (env : ε)
    (hwait : ∀ i, i < n →
      inState (fetch (World.gets w k + i)).1 (fetch (World.gets w k + i)).2 = some (false, none)) :
    WaitFor interval (probeCond k ns name fetch inState upd) n (w, env)
      = some (some ErrWaitTimeout,
          (w ++ ticksLog (Event.get k ns name) interval n ++ [Event.sleep interval],
            envAfter upd fetch (World.gets w k) n env)) := by
  induction n generalizing w env with
  | zero => simp [WaitFor, ticksLog, envAfter]
  | succ n ih =>
    have h0 := hwait 0 (by omega)
    have hp := probeCond_eval k ns name fetch inState upd interval w env (false, none)
      (by simpa using h0)
    rw [WaitFor, hp]
    simp only
    have hg := gets_tick k ns name interval w
    rw [ih (w ++ [Event.sleep interval, Event.get k ns name]) (upd (fetch (World.gets w k)) env)
      (by intro i hi; rw [hg]; have := hwait (i + 1) (by omega); rw [← this]; congr 3 <;> omega)]
    rw [hg]
    simp [ticksLog, envAfter]

theorem probeCond_first (w : World) (env : ε) (res : Bool × Option GoError)
    (h : inState (fetch (World.gets w k)).1 (fetch (World.gets w k)).2 = some res) :
    probeCond k ns name fetch inState upd (w, env)
      = some (res, (w ++ [Event.get k ns name], upd (fetch (World.gets w k)) env)) := by
  simp only [probeCond, h]

theorem gets_first (w : World) :
    World.gets (w ++ [Event.get k ns name]) k = World.gets w k + 1 := by
  rw [gets_append, gets_get_one]

/-- The poll stops at the first probe that is done or fatal, with that probe's
error (nil when it is done), after `j` sleeps and `j + 1` probes. -/
theorem PollImmediate_stop (timeout j : Nat) (w : World) (env : ε) (d : Bool)
    (fe : Option GoError) (hj : j ≤ timeout / interval)
    (hwait : ∀ i, i < j →
      inState (fetch (World.gets w k + i)).1 (fetch (World.gets w k + i)).2 = some (false, none))
    (hstop : inState (fetch (World.gets w k + j)).1 (fetch (World.gets w k + j)).2 = some (d, fe))
    (hd : d = true ∨ fe ≠ none) :
    PollImmediate interval timeout (probeCond k ns name fetch inState upd) (w, env)
      = some (fe, (w ++ Event.get k ns name :: ticksLog (Event.get k ns name) interval j,
          envAfter upd fetch (World.gets w k) (j + 1) env)) := by
  cases j with
  | zero =>
    have hp := probeCond_first k ns name fetch inState upd w env (d, fe) (by simpa using hstop)
    rw [PollImmediate, hp]
    cases fe with
    | some e => simp [ticksLog, envAfter]
    | none =>
      cases d with
      | true => simp [ticksLog, envAfter]
      | false => simp at hd
  | succ j =>
    have h0 := hwait 0 (by omega)
    have hp := probeCond_first k ns name fetch inState upd w env (false, none) (by simpa using h0)
    rw [PollImmediate, hp]
    simp only
    have hg := gets_first k ns name w
    rw [WaitFor_stop k ns name fetch inState upd interval j (timeout / interval)
      (w ++ [Event.get k ns name]) (upd (fetch (World.gets w k)) env) d fe (by omega)
      (by intro i hi; rw [hg]; have := hwait (i + 1) (by omega); rw [← this]; congr 3 <;> omega)
      (by rw [hg, ← hstop]; congr 3 <;> omega) hd]
    rw [hg]
    simp [envAfter]

/-- With every probe not done and not fatal, the poll probes once, then once per
tick, and ends with the timeout error after one more sleep. -/
theorem PollImmediate_timeout (timeout : Nat) (w : World) (env : ε)
    (hwait : ∀ i, i ≤ timeout / interval →
      inState (fetch (World.gets w k + i)).1 (fetch (World.gets w k + i)).2 = some (false, none)) :
    PollImmediate interval timeout (probeCond k ns name fetch inState upd) (w, env)
      = some (some ErrWaitTimeout,
          (w ++ Event.get k ns name :: ticksLog (Event.get k ns name) interval (timeout / interval)
              ++ [Event.sleep interval],
            envAfter upd fetch (World.gets w k) (timeout / interval + 1) env)) := by
  have h0 := hwait 0 (Nat.zero_le _)
  have hp := probeCond_first k ns name fetch inState upd w env (false, none) (by simpa using h0)
  rw [PollImmediate, hp]
  simp only
  have hg := gets_first k ns name w
  rw [WaitFor_timeout k ns name fetch inState upd interval (timeout / interval)
    (w ++ [Event.get k ns name]) (upd (fetch (World.gets w k)) env)
    (by intro i hi; rw [hg]; have := hwait (i + 1) (by omega); rw [← this]; congr 3 <;> omega)]
  rw [hg]
  simp [envAfter]

/-- The loop does not return when the first probe that is not a plain
keep-waiting panics. -/
theorem WaitFor_panic (j n : Nat) (w : World) (env : ε) (hj : j < n)
    (hwait : ∀ i, i < j →
      inState (fetch (World.gets w k + i)).1 (fetch (World.gets w k + i)).2 = some (false, none))
    (hstop : inState (fetch (World.gets w k + j)).1 (fetch (World.gets w k + j)).2 = none) :
    WaitFor interval (probeCond k ns name fetch inState upd) n (w, env) = none := by
  induction j generalizing n w env with
  | zero =>
    obtain ⟨n, rfl⟩ : ∃ m, n = m + 1 := ⟨n - 1, by omega⟩
    have hp := probeCond_panic k ns name fetch inState upd interval w env (by simpa using hstop)
    rw [WaitFor, hp]
  | succ j ih =>
    obtain ⟨n, rfl⟩ : ∃ m, n = m + 1 := ⟨n - 1, by omega⟩
    have h0 := hwait 0 (by omega)
    have hp := probeCond_eval k ns name fetch inState upd interval w env (false, none)
      (by simpa using h0)
    rw [WaitFor, hp]
    simp only
    have hg := gets_tick k ns name interval w
    exact ih n (w ++ [Event.sleep interval, Event.get k ns name]) (upd (fetch (World.gets w k)) env)
      (by omega)
      (by intro i hi; rw [hg]; have := hwait (i + 1) (by omega); rw [← this]; congr 3 <;> omega)
      (by rw [hg, ← hstop]; congr 3 <;> omega)

/-- The poll does not return when the first probe that is not a plain
keep-waiting panics. -/
theorem PollImmediate_panic (timeout j : Nat) (w : World) (env : ε)
    (hj : j ≤ timeout / interval)
    (hwait : ∀ i, i < j →
      inState (fetch (World.gets w k + i)).1 (fetch (World.gets w k + i)).2 = some (false, none))
    (hstop : inState (fetch (World.gets w k + j)).1 (fetch (World.gets w k + j)).2 = none) :
    PollImmediate interval timeout (probeCond k ns name fetch inState upd) (w, env) = none := by
  cases j with
  | zero =>
    have h : probeCond k ns name fetch inState upd (w, env) = none := by
      have h1 : inState (fetch (World.gets w k)).1 (fetch (World.gets w k)).2 = none := by
        simpa using hstop
      simp only [probeCond, h1]
    rw [PollImmediate, h]
  | succ j =>
    have h0 := hwait 0 (by omega)
    have hp := probeCond_first k ns name fetch inState upd w env (false, none) (by simpa using h0)
    rw [PollImmediate, hp]
    simp only
    have hg := gets_first k ns name w
    exact WaitFor_panic k ns name fetch inState upd interval j (timeout / interval)
      (w ++ [Event.get k ns name]) (upd (fetch (World.gets w k)) env) (by omega)
      (by intro i hi; rw [hg]; have := hwait (i + 1) (by omega); rw [← this]; congr 3 <;> omega)
      (by rw [hg, ← hstop]; congr 3 <;> omega)

/-- A sequence of judgements either keeps waiting through index `n`, or has a
first index up to `n` whose judgement is something else. -/
theorem first_other (r : Nat → Option (Bool × Option GoError)) (n : Nat) :
    (∀ i, i ≤ n → r i = some (false, none)) ∨
    ∃ j, j ≤ n ∧ (∀ i, i < j → r i = some (false, none)) ∧ r j ≠ some (false, none) := by
  induction n with
  | zero =>
    by_cases h : r 0 = some (false, none)
    · left; intro i hi; obtain rfl : i = 0 := by omega
      exact h
    · right; exact ⟨0, le_refl _, by intro i hi; omega, h⟩
  | succ n ih =>
    rcases ih with h | ⟨j, hj, hw, hs⟩
    · by_cases h1 : r (n + 1) = some (false, none)
      · left; intro i hi
        rcases Nat.lt_or_ge i (n + 1) with hlt | hge
        · exact h i (by omega)
        · obtain rfl : i = n + 1 := by omega
          exact h1
      · right; exact ⟨n + 1, le_refl _, fun i hi => h i (by omega), h1⟩
    · right; exact ⟨j, by omega, hw, hs⟩

/-- A judgement other than keep-waiting is a panic, or is done or fatal. -/
theorem other_cases (x : Option (Bool × Option GoError)) (h : x ≠ some (false, none)) :
    x = none ∨ ∃ d fe, x = some (d, fe) ∧ (d = true ∨ fe ≠ none) := by
  cases x with
  | none => exact Or.inl rfl
  | some y =>
    obtain ⟨d, fe⟩ := y
    cases fe with
    | some e => exact Or.inr ⟨d, some e, rfl, Or.inr (by simp)⟩
    | none =>
      cases d with
      | true => exact Or.inr ⟨true, none, rfl, Or.inl rfl⟩
      | false => exact absurd rfl h

/-- Every run of the poll is of one of three kinds: a panic of the predicate, a
stop at the first done or fatal probe, or a timeout after all ticks. -/
theorem PollImmediate_cases (timeout : Nat) (w : World) (env : ε) :
    (∃ j, j ≤ timeout / interval ∧
      inState (fetch (World.gets w k + j)).1 (fetch (World.gets w k + j)).2 = none ∧
      PollImmediate interval timeout (probeCond k ns name fetch inState upd) (w, env) = none) ∨
    (∃ j d fe, j ≤ timeout / interval ∧
      inState (fetch (World.gets w k + j)).1 (fetch (World.gets w k + j)).2 = some (d, fe) ∧
      (d = true ∨ fe ≠ none) ∧
      PollImmediate interval timeout (probeCond k ns name fetch inState upd) (w, env)
        = some (fe, (w ++ Event.get k ns name :: ticksLog (Event.get k ns name) interval j,
            envAfter upd fetch (World.gets w k) (j + 1) env))) ∨
    (PollImmediate interval timeout (probeCond k ns name fetch inState upd) (w, env)
        = some (some ErrWaitTimeout,
          (w ++ Event.get k ns name :: ticksLog (Event.get k ns name) interval (timeout / interval)
              ++ [Event.sleep interval],
            envAfter upd fetch (World.gets w k) (timeout / interval + 1) env))) := by
  rcases first_other
      (fun i => inState (fetch (World.gets w k + i)).1 (fetch (World.gets w k + i)).2)
      (timeout / interval) with h | ⟨j, hj, hw, hs⟩
  · right; right
    exact PollImmediate_timeout k ns name fetch inState upd interval timeout w env h
  · rcases other_cases _ hs with h1 | ⟨d, fe, h1, h2⟩
    · left
      exact ⟨j, hj, h1, PollImmediate_panic k ns name fetch inState upd interval timeout j w env
        hj hw h1⟩
    · right; left
      exact ⟨j, d, fe, hj, h1, h2,
        PollImmediate_stop k ns name fetch inState upd interval timeout j w env d fe hj hw h1 h2⟩

end Poller

/-! ## The wait functions as instances of the shared shape -/

theorem WaitForSubscriptionState_eq (cs : Clients) (name ns : String)
    (inState : Option v1alpha1.Subscription → Option GoError → Option (Bool × Option GoError))
    (w : World) :
    WaitForSubscriptionState cs name ns inState w =
      match PollImmediate Interval Timeout
          (probeCond Kind.subscription ns name (fun n => cs.SubscriptionsGet n ns name) inState
            (fun r _ => r)) (w, (none, none)) with
      | none => none
      | some (some waitErr, (w1, (lastState, _))) =>
        some ((lastState, some (GoError.wrapf "subscription %s is not in desired state, got: %+v"
          [FmtArg.str name, FmtArg.subscription lastState] waitErr)), w1)
      | some (none, (w1, (lastState, _))) => some ((lastState, none), w1) := rfl

theorem WaitForClusterServiceVersionState_eq (cs : Clients) (name ns : String)
    (inState : Option v1alpha1.ClusterServiceVersion → Option GoError →
      Option (Bool × Option GoError))
    (w : World) :
    WaitForClusterServiceVersionState cs name ns inState w =
      match PollImmediate Interval Timeout
          (probeCond Kind.clusterServiceVersion ns name
            (fun n => cs.ClusterServiceVersionsGet n ns name) inState (fun r _ => r))
          (w, (none, none)) with
      | none => none
      | some (some waitErr, (w1, (lastState, _))) =>
        some ((lastState, some (GoError.wrapf
          "clusterserviceversion %s is not in desired state, got: %+v"
          [FmtArg.str name, FmtArg.csv lastState] waitErr)), w1)
      | some (none, (w1, (lastState, _))) => some ((lastState, none), w1) := rfl

theorem WaitForTektonAddonState_eq (clients : TektonAddonInterface) (name : String)
    (inState : Option v1alpha1.TektonAddon → Option GoError → Option (Bool × Option GoError))
    (w : World) :
    WaitForTektonAddonState clients name inState w =
      match PollImmediate APIRetry APITimeout
          (probeCond Kind.tektonAddon "" name (fun n => clients.Get n name) inState
            (fun _ e => e)) (w, none) with
      | none => none
      | some (some waitErr, (w1, lastState)) =>
        some ((lastState, some (GoError.wrapf
          "tektonaddon %s is not in desired state, got: %+v: %w"
          [FmtArg.str name, FmtArg.addon lastState] waitErr)), w1)
      | some (none, (w1, lastState)) => some ((lastState, none), w1) := rfl

theorem ticks_olm : Timeout / Interval = 30 := by decide

theorem ticks_config : APITimeout / APIRetry = 240 := by decide

/-! ### WaitForSubscriptionState -/

theorem WaitForSubscriptionState_stop (cs : Clients) (name ns : String)
    (inState : Option v1alpha1.Subscription → Option GoError → Option (Bool × Option GoError))
    (w : World) (j : Nat) (d : Bool) (fe : Option GoError) (hj : j ≤ 30)
    (hwait : ∀ i, i < j →
      inState (cs.SubscriptionsGet (World.gets w Kind.subscription + i) ns name).1
        (cs.SubscriptionsGet (World.gets w Kind.subscription + i) ns name).2 = some (false, none))
    (hstop : inState (cs.SubscriptionsGet (World.gets w Kind.subscription + j) ns name).1
        (cs.SubscriptionsGet (World.gets w Kind.subscription + j) ns name).2 = some (d, fe))
    (hd : d = true ∨ fe ≠ none) :
    WaitForSubscriptionState cs name ns inState w =
      some (((cs.SubscriptionsGet (World.gets w Kind.subscription + j) ns name).1,
          fe.map (GoError.wrapf "subscription %s is not in desired state, got: %+v"
            [FmtArg.str name,
              FmtArg.subscription (cs.SubscriptionsGet (World.gets w Kind.subscription + j) ns name).1])),
        w ++ Event.get Kind.subscription ns name :: ticksLog (Event.get Kind.subscription ns name) Interval j) := by
  rw [WaitForSubscriptionState_eq,
    PollImmediate_stop Kind.subscription ns name (fun n => cs.SubscriptionsGet n ns name) inState
      (fun r _ => r) Interval Timeout j w (none, none) d fe (by rw [ticks_olm]; exact hj)
      hwait hstop hd, envAfter_store]
  cases fe <;> rfl

theorem WaitForSubscriptionState_timeout (cs : Clients) (name ns : String)
    (inState : Option v1alpha1.Subscription → Option GoError → Option (Bool × Option GoError))
    (w : World)
    (hwait : ∀ i, i ≤ 30 →
      inState (cs.SubscriptionsGet (World.gets w Kind.subscription + i) ns name).1
        (cs.SubscriptionsGet (World.gets w Kind.subscription + i) ns name).2 = some (false, none)) :
    WaitForSubscriptionState cs name ns inState w =
      some (((cs.SubscriptionsGet (World.gets w Kind.subscription + 30) ns name).1,
          some (GoError.wrapf "subscription %s is not in desired state, got: %+v"
            [FmtArg.str name,
              FmtArg.subscription (cs.SubscriptionsGet (World.gets w Kind.subscription + 30) ns name).1]
            ErrWaitTimeout)),
        w ++ Event.get Kind.subscription ns name :: ticksLog (Event.get Kind.subscription ns name) Interval 30
          ++ [Event.sleep Interval]) := by
  rw [WaitForSubscriptionState_eq,
    PollImmediate_timeout Kind.subscription ns name (fun n => cs.SubscriptionsGet n ns name) inState
      (fun r _ => r) Interval Timeout w (none, none) (by rw [ticks_olm]; exact hwait),
    envAfter_store, ticks_olm]

theorem WaitForSubscriptionState_panic (cs : Clients) (name ns : String)
    (inState : Option v1alpha1.Subscription → Option GoError → Option (Bool × Option GoError))
    (w : World) (j : Nat) (hj : j ≤ 30)
    (hwait : ∀ i, i < j →
      inState (cs.SubscriptionsGet (World.gets w Kind.subscription + i) ns name).1
        (cs.SubscriptionsGet (World.gets w Kind.subscription + i) ns name).2 = some (false, none))
    (hstop : inState (cs.SubscriptionsGet (World.gets w Kind.subscription + j) ns name).1
        (cs.SubscriptionsGet (World.gets w Kind.subscription + j) ns name).2 = none) :
    WaitForSubscriptionState cs name ns inState w = none := by
  rw [WaitForSubscriptionState_eq,
    PollImmediate_panic Kind.subscription ns name (fun n => cs.SubscriptionsGet n ns name) inState
      (fun r _ => r) Interval Timeout j w (none, none) (by rw [ticks_olm]; exact hj)
      hwait hstop]

/-- Every run of WaitForSubscriptionState: a panic of the predicate, a stop at the first done or
fatal probe, or a timeout after probe 31. -/
theorem WaitForSubscriptionState_cases (cs : Clients) (name ns : String)
    (inState : Option v1alpha1.Subscription → Option GoError → Option (Bool × Option GoError))
    (w : World) :
    (∃ j, j ≤ 30 ∧
      inState (cs.SubscriptionsGet (World.gets w Kind.subscription + j) ns name).1
        (cs.SubscriptionsGet (World.gets w Kind.subscription + j) ns name).2 = none ∧
      WaitForSubscriptionState cs name ns inState w = none) ∨
    (∃ j d fe, j ≤ 30 ∧
      inState (cs.SubscriptionsGet (World.gets w Kind.subscription + j) ns name).1
        (cs.SubscriptionsGet (World.gets w Kind.subscription + j) ns name).2 = some (d, fe) ∧
      (d = true ∨ fe ≠ none) ∧
      WaitForSubscriptionState cs name ns inState w =
        some (((cs.SubscriptionsGet (World.gets w Kind.subscription + j) ns name).1,
            fe.map (GoError.wrapf "subscription %s is not in desired state, got: %+v"
              [FmtArg.str name,
                FmtArg.subscription (cs.SubscriptionsGet (World.gets w Kind.subscription + j) ns name).1])),
          w ++ Event.get Kind.subscription ns name :: ticksLog (Event.get Kind.subscription ns name) Interval j)) ∨
    (WaitForSubscriptionState cs name ns inState w =
      some (((cs.SubscriptionsGet (World.gets w Kind.subscription + 30) ns name).1,
          some (GoError.wrapf "subscription %s is not in desired state, got: %+v"
            [FmtArg.str name,
              FmtArg.subscription (cs.SubscriptionsGet (World.gets w Kind.subscription + 30) ns name).1]
            ErrWaitTimeout)),
        w ++ Event.get Kind.subscription ns name :: ticksLog (Event.get Kind.subscription ns name) Interval 30
          ++ [Event.sleep Interval])) := by
  rcases first_other
      (fun i => inState (cs.SubscriptionsGet (World.gets w Kind.subscription + i) ns name).1
        (cs.SubscriptionsGet (World.gets w Kind.subscription + i) ns name).2) 30 with h | ⟨j, hj, hw, hs⟩
  · right; right
    exact WaitForSubscriptionState_timeout cs name ns inState w h
  · rcases other_cases _ hs with h1 | ⟨d, fe, h1, h2⟩
    · left
      exact ⟨j, hj, h1, WaitForSubscriptionState_panic cs name ns inState w j hj hw h1⟩
    · right; left
      exact ⟨j, d, fe, hj, h1, h2, WaitForSubscriptionState_stop cs name ns inState w j d fe hj hw h1 h2⟩

/-! ### WaitForClusterServiceVersionState -/

theorem WaitForClusterServiceVersionState_stop (cs : Clients) (name ns : String)
    (inState : Option v1alpha1.ClusterServiceVersion → Option GoError → Option (Bool × Option GoError))
    (w : World) (j : Nat) (d : Bool) (fe : Option GoError) (hj : j ≤ 30)
    (hwait : ∀ i, i < j →
      inState (cs.ClusterServiceVersionsGet (World.gets w Kind.clusterServiceVersion + i) ns name).1
        (cs.ClusterServiceVersionsGet (World.gets w Kind.clusterServiceVersion + i) ns name).2 = some (false, none))
    (hstop : inState (cs.ClusterServiceVersionsGet (World.gets w Kind.clusterServiceVersion + j) ns name).1
        (cs.ClusterServiceVersionsGet (World.gets w Kind.clusterServiceVersion + j) ns name).2 = some (d, fe))
    (hd : d = true ∨ fe ≠ none) :
    WaitForClusterServiceVersionState cs name ns inState w =
      some (((cs.ClusterServiceVersionsGet (World.gets w Kind.clusterServiceVersion + j) ns name).1,
          fe.map (GoError.wrapf "clusterserviceversion %s is not in desired state, got: %+v"
            [FmtArg.str name,
              FmtArg.csv (cs.ClusterServiceVersionsGet (World.gets w Kind.clusterServiceVersion + j) ns name).1])),
        w ++ Event.get Kind.clusterServiceVersion ns name :: ticksLog (Event.get Kind.clusterServiceVersion ns name) Interval j) := by
  rw [WaitForClusterServiceVersionState_eq,
    PollImmediate_stop Kind.clusterServiceVersion ns name (fun n => cs.ClusterServiceVersionsGet n ns name) inState
      (fun r _ => r) Interval Timeout j w (none, none) d fe (by rw [ticks_olm]; exact hj)
      hwait hstop hd, envAfter_store]
  cases fe <;> rfl

theorem WaitForClusterServiceVersionState_timeout (cs : Clients) (name ns : String)
    (inState : Option v1alpha1.ClusterServiceVersion → Option GoError → Option (Bool × Option GoError))
    (w : World)
    (hwait : ∀ i, i ≤ 30 →
      inState (cs.ClusterServiceVersionsGet (World.gets w Kind.clusterServiceVersion + i) ns name).1
        (cs.ClusterServiceVersionsGet (World.gets w Kind.clusterServiceVersion + i) ns name).2 = some (false, none)) :
    WaitForClusterServiceVersionState cs name ns inState w =
      some (((cs.ClusterServiceVersionsGet (World.gets w Kind.clusterServiceVersion + 30) ns name).1,
          some (GoError.wrapf "clusterserviceversion %s is not in desired state, got: %+v"
            [FmtArg.str name,
              FmtArg.csv (cs.ClusterServiceVersionsGet (World.gets w Kind.clusterServiceVersion + 30) ns name).1]
            ErrWaitTimeout)),
        w ++ Event.get Kind.clusterServiceVersion ns name :: ticksLog (Event.get Kind.clusterServiceVersion ns name) Interval 30
          ++ [Event.sleep Interval]) := by
  rw [WaitForClusterServiceVersionState_eq,
    PollImmediate_timeout Kind.clusterServiceVersion ns name (fun n => cs.ClusterServiceVersionsGet n ns name) inState
      (fun r _ => r) Interval Timeout w (none, none) (by rw [ticks_olm]; exact hwait),
    envAfter_store, ticks_olm]

theorem WaitForClusterServiceVersionState_panic (cs : Clients) (name ns : String)
    (inState : Option v1alpha1.ClusterServiceVersion → Option GoError → Option (Bool × Option GoError))
    (w : World) (j : Nat) (hj : j ≤ 30)
    (hwait : ∀ i, i < j →
      inState (cs.ClusterServiceVersionsGet (World.gets w Kind.clusterServiceVersion + i) ns name).1
        (cs.ClusterServiceVersionsGet (World.gets w Kind.clusterServiceVersion + i) ns name).2 = some (false, none))
    (hstop : inState (cs.ClusterServiceVersionsGet (World.gets w Kind.clusterServiceVersion + j) ns name).1
        (cs.ClusterServiceVersionsGet (World.gets w Kind.clusterServiceVersion + j) ns name).2 = none) :
    WaitForClusterServiceVersionState cs name ns inState w = none := by
  rw [WaitForClusterServiceVersionState_eq,
    PollImmediate_panic Kind.clusterServiceVersion ns name (fun n => cs.ClusterServiceVersionsGet n ns name) inState
      (fun r _ => r) Interval Timeout j w (none, none) (by rw [ticks_olm]; exact hj)
      hwait hstop]

/-- Every run of WaitForClusterServiceVersionState: a panic of the predicate, a stop at the first done or
fatal probe, or a timeout after probe 31. -/
theorem WaitForClusterServiceVersionState_cases (cs : Clients) (name ns : String)
    (inState : Option v1alpha1.ClusterServiceVersion → Option GoError → Option (Bool × Option GoError))
    (w : World) :
    (∃ j, j ≤ 30 ∧
      inState (cs.ClusterServiceVersionsGet (World.gets w Kind.clusterServiceVersion + j) ns name).1
        (cs.ClusterServiceVersionsGet (World.gets w Kind.clusterServiceVersion + j) ns name).2 = none ∧
      WaitForClusterServiceVersionState cs name ns inState w = none) ∨
    (∃ j d fe, j ≤ 30 ∧
      inState (cs.ClusterServiceVersionsGet (World.gets w Kind.clusterServiceVersion + j) ns name).1
        (cs.ClusterServiceVersionsGet (World.gets w Kind.clusterServiceVersion + j) ns name).2 = some (d, fe) ∧
      (d = true ∨ fe ≠ none) ∧
      WaitForClusterServiceVersionState cs name ns inState w =
        some (((cs.ClusterServiceVersionsGet (World.gets w Kind.clusterServiceVersion + j) ns name).1,
            fe.map (GoError.wrapf "clusterserviceversion %s is not in desired state, got: %+v"
              [FmtArg.str name,
                FmtArg.csv (cs.ClusterServiceVersionsGet (World.gets w Kind.clusterServiceVersion + j) ns name).1])),
          w ++ Event.get Kind.clusterServiceVersion ns name :: ticksLog (Event.get Kind.clusterServiceVersion ns name) Interval j)) ∨
    (WaitForClusterServiceVersionState cs name ns inState w =
      some (((cs.ClusterServiceVersionsGet (World.gets w Kind.clusterServiceVersion + 30) ns name).1,
          some (GoError.wrapf "clusterserviceversion %s is not in desired state, got: %+v"
            [FmtArg.str name,
              FmtArg.csv (cs.ClusterServiceVersionsGet (World.gets w Kind.clusterServiceVersion + 30) ns name).1]
            ErrWaitTimeout)),
        w ++ Event.get Kind.clusterServiceVersion ns name :: ticksLog (Event.get Kind.clusterServiceVersion ns name) Interval 30
          ++ [Event.sleep Interval])) := by
  rcases first_other
      (fun i => inState (cs.ClusterServiceVersionsGet (World.gets w Kind.clusterServiceVersion + i) ns name).1
        (cs.ClusterServiceVersionsGet (World.gets w Kind.clusterServiceVersion + i) ns name).2) 30 with h | ⟨j, hj, hw, hs⟩
  · right; right
    exact WaitForClusterServiceVersionState_timeout cs name ns inState w h
  · rcases other_cases _ hs with h1 | ⟨d, fe, h1, h2⟩
    · left
      exact ⟨j, hj, h1, WaitForClusterServiceVersionState_panic cs name ns inState w j hj hw h1⟩
    · right; left
      exact ⟨j, d, fe, hj, h1, h2, WaitForClusterServiceVersionState_stop cs name ns inState w j d fe hj hw h1 h2⟩

/-! ### WaitForTektonAddonState -/

theorem WaitForTektonAddonState_stop (clients : TektonAddonInterface) (name : String)
    (inState : Option v1alpha1.TektonAddon → Option GoError → Option (Bool × Option GoError))
    (w : World) (j : Nat) (d : Bool) (fe : Option GoError) (hj : j ≤ 240)
    (hwait : ∀ i, i < j →
      inState (clients.Get (World.gets w Kind.tektonAddon + i) name).1
        (clients.Get (World.gets w Kind.tektonAddon + i) name).2 = some (false, none))
    (hstop : inState (clients.Get (World.gets w Kind.tektonAddon + j) name).1
        (clients.Get (World.gets w Kind.tektonAddon + j) name).2 = some (d, fe))
    (hd : d = true ∨ fe ≠ none) :
    WaitForTektonAddonState clients name inState w =
      some ((none,
          fe.map (GoError.wrapf "tektonaddon %s is not in desired state, got: %+v: %w"
            [FmtArg.str name, FmtArg.addon none])),
        w ++ Event.get Kind.tektonAddon "" name ::
          ticksLog (Event.get Kind.tektonAddon "" name) APIRetry j) := by
  rw [WaitForTektonAddonState_eq,
    PollImmediate_stop Kind.tektonAddon "" name (fun n => clients.Get n name) inState
      (fun _ e => e) APIRetry APITimeout j w none d fe (by rw [ticks_config]; exact hj)
      hwait hstop hd, envAfter_keep]
  cases fe <;> rfl

theorem WaitForTektonAddonState_timeout (clients : TektonAddonInterface) (name : String)
    (inState : Option v1alpha1.TektonAddon → Option GoError → Option (Bool × Option GoError))
    (w : World)
    (hwait : ∀ i, i ≤ 240 →
      inState (clients.Get (World.gets w Kind.tektonAddon + i) name).1
        (clients.Get (World.gets w Kind.tektonAddon + i) name).2 = some (false, none)) :
    WaitForTektonAddonState clients name inState w =
      some ((none,
          some (GoError.wrapf "tektonaddon %s is not in desired state, got: %+v: %w"
            [FmtArg.str name, FmtArg.addon none] ErrWaitTimeout)),
        w ++ Event.get Kind.tektonAddon "" name ::
          ticksLog (Event.get Kind.tektonAddon "" name) APIRetry 240
          ++ [Event.sleep APIRetry]) := by
  rw [WaitForTektonAddonState_eq,
    PollImmediate_timeout Kind.tektonAddon "" name (fun n => clients.Get n name) inState
      (fun _ e => e) APIRetry APITimeout w none (by rw [ticks_config]; exact hwait),
    envAfter_keep, ticks_config]

/-! ## The claims -/

/-- The state handed back by `WaitForTektonAddonState` is nil on every run that
returns, whatever was fetched. -/
theorem WaitForTektonAddonState_state_nil (clients : TektonAddonInterface) (name : String)
    (inState : Option v1alpha1.TektonAddon → Option GoError → Option (Bool × Option GoError))
    (w : World) (r : GetResult v1alpha1.TektonAddon × World)
    (h : WaitForTektonAddonState clients name inState w = some r) : r.1.1 = none := by
  rw [WaitForTektonAddonState_eq] at h
  rcases PollImmediate_cases Kind.tektonAddon "" name (fun n => clients.Get n name) inState
      (fun (_ : GetResult v1alpha1.TektonAddon) (e : Option v1alpha1.TektonAddon) => e)
      APIRetry APITimeout w none with ⟨j, _, _, hp⟩ | ⟨j, d, fe, _, _, _, hp⟩ | hp
  · rw [hp] at h; simp at h
  · rw [hp, envAfter_keep] at h
    cases fe <;> simp at h <;> rw [← h]
  · rw [hp, envAfter_keep] at h
    simp at h; rw [← h]

/-- C1 (the code fails it): in Scenario B, where every Get answers with an addon
that is not ready, `WaitForTektonAddonState` returns the wrapped timeout error
together with the nil state, although the most recent fetch, the last Get of
the log, produced the addon. -/
theorem WaitForTektonAddonState_scenarioB (w : World) :
    ∃ w1, WaitForTektonAddonState scenarioB_clients "addon"
          (IsTektonAddonReady scenarioB_IsReady) w
        = some ((none,
            some (GoError.wrapf "tektonaddon %s is not in desired state, got: %+v: %w"
              [FmtArg.str "addon", FmtArg.addon none] ErrWaitTimeout)), w1) ∧
      World.gets w Kind.tektonAddon < World.gets w1 Kind.tektonAddon ∧
      (scenarioB_clients.Get (World.gets w1 Kind.tektonAddon - 1) "addon").1
        = some scenarioB_addon :=
  ⟨_, WaitForTektonAddonState_timeout scenarioB_clients "addon"
      (IsTektonAddonReady scenarioB_IsReady) w (fun _ _ => rfl),
    by rw [gets_append, gets_append]; simp [World.gets, Event.isGet], rfl⟩

/-- C2 (as stated, refuted): `IsCSVSucceeded` on a not-found fetch error hands
that error back as its own, so it is fatal; in Scenario A the wait ends at the
first probe with the not-found error wrapped, not with success at probe 4. -/
theorem IsCSVSucceeded_notFound_is_fatal :
    IsCSVSucceeded (some csvEmpty) (some errNotFound) = some (false, some errNotFound) ∧
    IsCSVSucceeded (some csvEmpty) (some errNotFound) ≠ some (false, none) ∧
    WaitForClusterServiceVersionState scenarioA_clients "csv" OperatorsNamespace IsCSVSucceeded []
      = some ((some csvEmpty,
          some (GoError.wrapf "clusterserviceversion %s is not in desired state, got: %+v"
            [FmtArg.str "csv", FmtArg.csv (some csvEmpty)] errNotFound)),
        [Event.get Kind.clusterServiceVersion OperatorsNamespace "csv"]) := by
  refine ⟨by decide, by decide, ?_⟩
  exact WaitForClusterServiceVersionState_stop scenarioA_clients "csv" OperatorsNamespace
    IsCSVSucceeded [] 0 false (some errNotFound) (by omega) (fun i hi => absurd hi (by omega))
    (by decide) (Or.inr (by simp))

/-- C2 (amended): for every CSV `c` and every fetch error `e`, nil or not,
`IsCSVSucceeded(c, e)` yields done = (phase is "Succeeded") together with `e`
itself as its error. Hence a fetch error on the first probe ends
`WaitForClusterServiceVersionState` at that probe with that error wrapped, and
with CSVs of another phase and nil error on probes 1 to 3 and a Succeeded CSV
with nil error on probe 4 the wait returns success after exactly 4 probes. -/
theorem IsCSVSucceeded_passes_error (cs : Clients) (name ns : String) (w : World) :
    (∀ (c : v1alpha1.ClusterServiceVersion) (e : Option GoError),
      IsCSVSucceeded (some c) e = some (decide (c.Status.Phase = "Succeeded"), e)) ∧
    (∀ (c : v1alpha1.ClusterServiceVersion) (e : GoError),
      cs.ClusterServiceVersionsGet (World.gets w Kind.clusterServiceVersion) ns name
        = (some c, some e) →
      WaitForClusterServiceVersionState cs name ns IsCSVSucceeded w
        = some ((some c,
            some (GoError.wrapf "clusterserviceversion %s is not in desired state, got: %+v"
              [FmtArg.str name, FmtArg.csv (some c)] e)),
          w ++ [Event.get Kind.clusterServiceVersion ns name])) ∧
    (∀ (c : v1alpha1.ClusterServiceVersion),
      (∀ i, i < 3 → ∃ c0 : v1alpha1.ClusterServiceVersion,
        cs.ClusterServiceVersionsGet (World.gets w Kind.clusterServiceVersion + i) ns name
          = (some c0, none) ∧ c0.Status.Phase ≠ "Succeeded") →
      cs.ClusterServiceVersionsGet (World.gets w Kind.clusterServiceVersion + 3) ns name
        = (some c, none) →
      c.Status.Phase = "Succeeded" →
      WaitForClusterServiceVersionState cs name ns IsCSVSucceeded w
        = some ((some c, none),
          w ++ Event.get Kind.clusterServiceVersion ns name ::
            ticksLog (Event.get Kind.clusterServiceVersion ns name) Interval 3) ∧
      World.gets (w ++ Event.get Kind.clusterServiceVersion ns name ::
            ticksLog (Event.get Kind.clusterServiceVersion ns name) Interval 3)
          Kind.clusterServiceVersion
        = World.gets w Kind.clusterServiceVersion + 4) := by
  refine ⟨?_, ?_, ?_⟩
  · intro c e
    rfl
  · intro c e h
    have hs := WaitForClusterServiceVersionState_stop cs name ns IsCSVSucceeded w 0
      (c.Status.Phase == "Succeeded") (some e) (by omega) (fun i hi => absurd hi (by omega))
      (by rw [Nat.add_zero, h]; rfl) (Or.inr (by simp))
    rw [Nat.add_zero, h] at hs
    rw [hs]; rfl
  · intro c hwait hlast hphase
    have hs := WaitForClusterServiceVersionState_stop cs name ns IsCSVSucceeded w 3 true none
      (by omega)
      (by
        intro i hi
        obtain ⟨c0, h0, hne⟩ := hwait i hi
        rw [h0]
        simp [IsCSVSucceeded, hne])
      (by rw [hlast]; simp [IsCSVSucceeded, hphase]) (Or.inl rfl)
    rw [hlast] at hs
    refine ⟨by rw [hs]; rfl, ?_⟩
    rw [gets_append]
    have h4 : World.gets (Event.get Kind.clusterServiceVersion ns name ::
        ticksLog (Event.get Kind.clusterServiceVersion ns name) Interval 3)
        Kind.clusterServiceVersion = 4 := by
      simp [ticksLog, World.gets, Event.isGet]
    rw [h4]

/-- C2 (amended), at concrete inputs: a not-found fetch error on probe 1 ends the
wait there, and three installing CSVs followed by a Succeeded one give success
after the 4th probe. -/
theorem IsCSVSucceeded_passes_error_witness :
    WaitForClusterServiceVersionState scenarioA_clients "csv" OperatorsNamespace IsCSVSucceeded []
      = some ((some csvEmpty,
          some (GoError.wrapf "clusterserviceversion %s is not in desired state, got: %+v"
            [FmtArg.str "csv", FmtArg.csv (some csvEmpty)] errNotFound)),
        [] ++ [Event.get Kind.clusterServiceVersion OperatorsNamespace "csv"]) ∧
    (WaitForClusterServiceVersionState installing_clients "csv" OperatorsNamespace
        IsCSVSucceeded []
      = some ((some csvSucceeded, none),
          [] ++ Event.get Kind.clusterServiceVersion OperatorsNamespace "csv" ::
            ticksLog (Event.get Kind.clusterServiceVersion OperatorsNamespace "csv") Interval 3) ∧
      World.gets ([] ++ Event.get Kind.clusterServiceVersion OperatorsNamespace "csv" ::
            ticksLog (Event.get Kind.clusterServiceVersion OperatorsNamespace "csv") Interval 3)
          Kind.clusterServiceVersion
        = World.gets [] Kind.clusterServiceVersion + 4) :=
  ⟨(IsCSVSucceeded_passes_error scenarioA_clients "csv" OperatorsNamespace []).2.1
      csvEmpty errNotFound rfl,
    (IsCSVSucceeded_passes_error installing_clients "csv" OperatorsNamespace []).2.2
      csvSucceeded
      (fun i hi => ⟨csvInstalling, by
        have h3 : World.gets [] Kind.clusterServiceVersion + i < 3 := by
          simpa [World.gets] using hi
        simp [installing_clients, h3], by decide⟩)
      (by decide) (by decide)⟩

/-- C3 (as stated, refuted): with a permission-denied fetch error,
`IsSubscriptionInstalledCSVPresent` does not return a nil error: it hands the
fetch error back as its own. -/
theorem IsSubscriptionInstalledCSVPresent_error_not_nil :
    IsSubscriptionInstalledCSVPresent (some subInstalled) (some errForbidden)
      = some (true, some errForbidden) ∧
    IsSubscriptionInstalledCSVPresent (some subInstalled) (some errForbidden)
      ≠ some (true, none) := by
  refine ⟨by decide, by decide⟩

/-- C3 (amended): for every subscription `s` and every fetch error `e`, nil or
not, `IsSubscriptionInstalledCSVPresent(s, e)` returns done =
(`s.Status.InstalledCSV` is non-empty and is not the sentinel "<none>") together
with `e` itself as its error, which is nil exactly when the fetch error is nil. -/
theorem IsSubscriptionInstalledCSVPresent_spec (s : v1alpha1.Subscription)
    (e : Option GoError) :
    IsSubscriptionInstalledCSVPresent (some s) e
      = some (decide (s.Status.InstalledCSV ≠ "" ∧ s.Status.InstalledCSV ≠ "<none>"), e) := by
  by_cases h1 : s.Status.InstalledCSV = "" <;> by_cases h2 : s.Status.InstalledCSV = "<none>" <;>
    simp [IsSubscriptionInstalledCSVPresent, h1, h2]

/-- C4 (as stated, refuted): on a nil addon `IsTektonAddonReady` does not return
done = false; reading the status of the nil addon panics. -/
theorem IsTektonAddonReady_nil_panics :
    IsTektonAddonReady scenarioB_IsReady none none = none ∧
    IsTektonAddonReady scenarioB_IsReady none none ≠ some (false, none) := by
  refine ⟨rfl, by simp [IsTektonAddonReady]⟩

/-- C4 (amended): `IsTektonAddonReady` is defined on non-nil addons only: for
every fetch error `e`, on a non-nil addon `s` it returns done =
`s.Status.IsReady()` together with `e`, and on the nil addon it dereferences
nil and panics. -/
theorem IsTektonAddonReady_spec (IsReady : v1alpha1.TektonAddonStatus → Bool)
    (e : Option GoError) :
    (∀ s : v1alpha1.TektonAddon,
      IsTektonAddonReady IsReady (some s) e = some (IsReady s.Status, e)) ∧
    IsTektonAddonReady IsReady none e = none :=
  ⟨fun _ => rfl, rfl⟩

/-- C5: the condition polled by `TektonAddonCRDelete` classifies the outcome of
its Get: a not-found error (one that `apierrs.IsNotFound` accepts, bare or
wrapped) gives (done, nil); a nil error gives (not done, nil); any other error
`e` gives (not done, `e`), and then the wait ends with `e` itself after exactly
one probe and no sleep. -/
theorem TektonAddonCRDelete_condition_spec (clients : TektonAddonInterface) (name : String)
    (w : World) :
    (IsNotFound (clients.Get (World.gets w Kind.tektonAddon) name).2 = true →
      TektonAddonCRDelete_condition clients name (w, ())
        = some ((true, none), (w ++ [Event.get Kind.tektonAddon "" name], ()))) ∧
    ((clients.Get (World.gets w Kind.tektonAddon) name).2 = none →
      TektonAddonCRDelete_condition clients name (w, ())
        = some ((false, none), (w ++ [Event.get Kind.tektonAddon "" name], ()))) ∧
    (∀ e : GoError, (clients.Get (World.gets w Kind.tektonAddon) name).2 = some e →
      IsNotFound (some e) = false →
      TektonAddonCRDelete_condition clients name (w, ())
          = some ((false, some e), (w ++ [Event.get Kind.tektonAddon "" name], ())) ∧
        TektonAddonCRDelete_poll clients name w
          = some (some e, w ++ [Event.get Kind.tektonAddon "" name])) := by
  refine ⟨?_, ?_, ?_⟩
  · intro h
    simp [TektonAddonCRDelete_condition, TektonAddonInterface.get, h]
  · intro h
    simp [TektonAddonCRDelete_condition, TektonAddonInterface.get, h, IsNotFound]
  · intro e he hnf
    have hc : TektonAddonCRDelete_condition clients name (w, ())
        = some ((false, some e), (w ++ [Event.get Kind.tektonAddon "" name], ())) := by
      simp [TektonAddonCRDelete_condition, TektonAddonInterface.get, he, hnf]
    refine ⟨hc, ?_⟩
    simp [TektonAddonCRDelete_poll, PollImmediate, hc]

/-- C5 at concrete inputs: a vanished addon, a not-found error that a caller has
wrapped, a still present addon, and Scenario C, where permission denied on
probe 1 ends the wait after exactly one probe. -/
theorem TektonAddonCRDelete_condition_spec_witness :
    TektonAddonCRDelete_condition absent_clients "addon" ([], ())
      = some ((true, none), ([] ++ [Event.get Kind.tektonAddon "" "addon"], ())) ∧
    TektonAddonCRDelete_condition wrappedNotFound_clients "addon" ([], ())
      = some ((true, none), ([] ++ [Event.get Kind.tektonAddon "" "addon"], ())) ∧
    TektonAddonCRDelete_condition scenarioB_clients "addon" ([], ())
      = some ((false, none), ([] ++ [Event.get Kind.tektonAddon "" "addon"], ())) ∧
    TektonAddonCRDelete_condition scenarioC_clients "addon" ([], ())
      = some ((false, some errForbidden), ([] ++ [Event.get Kind.tektonAddon "" "addon"], ())) ∧
    TektonAddonCRDelete_poll scenarioC_clients "addon" []
      = some (some errForbidden, [] ++ [Event.get Kind.tektonAddon "" "addon"]) :=
  ⟨(TektonAddonCRDelete_condition_spec absent_clients "addon" []).1 rfl,
    (TektonAddonCRDelete_condition_spec wrappedNotFound_clients "addon" []).1 rfl,
    (TektonAddonCRDelete_condition_spec scenarioB_clients "addon" []).2.1 rfl,
    (TektonAddonCRDelete_condition_spec scenarioC_clients "addon" []).2.2 errForbidden rfl rfl⟩

/-- C6 (as stated, refuted): the predicate signals the fatal error
permission-denied on probe 1; the waits stop there, but the error they return
is a new error wrapping it, not that exact error. -/
theorem WaitFor_fatal_error_is_wrapped :
    IsSubscriptionInstalledCSVPresent
        (forbidden_clients.SubscriptionsGet 0 OperatorsNamespace "sub").1
        (forbidden_clients.SubscriptionsGet 0 OperatorsNamespace "sub").2
      = some (true, some errForbidden) ∧
    WaitForSubscriptionState forbidden_clients "sub" OperatorsNamespace
        IsSubscriptionInstalledCSVPresent []
      = some ((some subInstalled,
          some (GoError.wrapf "subscription %s is not in desired state, got: %+v"
            [FmtArg.str "sub", FmtArg.subscription (some subInstalled)] errForbidden)),
        [Event.get Kind.subscription OperatorsNamespace "sub"]) ∧
    WaitForClusterServiceVersionState forbidden_clients "csv" OperatorsNamespace IsCSVSucceeded []
      = some ((some csvEmpty,
          some (GoError.wrapf "clusterserviceversion %s is not in desired state, got: %+v"
            [FmtArg.str "csv", FmtArg.csv (some csvEmpty)] errForbidden)),
        [Event.get Kind.clusterServiceVersion OperatorsNamespace "csv"]) ∧
    GoError.wrapf "subscription %s is not in desired state, got: %+v"
        [FmtArg.str "sub", FmtArg.subscription (some subInstalled)] errForbidden ≠ errForbidden ∧
    GoError.wrapf "clusterserviceversion %s is not in desired state, got: %+v"
        [FmtArg.str "csv", FmtArg.csv (some csvEmpty)] errForbidden ≠ errForbidden := by
  refine ⟨by decide, ?_, ?_, by simp [errForbidden], by simp [errForbidden]⟩
  · exact WaitForSubscriptionState_stop forbidden_clients "sub" OperatorsNamespace
      IsSubscriptionInstalledCSVPresent [] 0 true (some errForbidden) (by omega)
      (fun i hi => absurd hi (by omega)) (by decide) (Or.inr (by simp))
  · exact WaitForClusterServiceVersionState_stop forbidden_clients "csv" OperatorsNamespace
      IsCSVSucceeded [] 0 false (some errForbidden) (by omega)
      (fun i hi => absurd hi (by omega)) (by decide) (Or.inr (by simp))

theorem ticks_within (j : Nat) (h : j * Interval ≤ Timeout) : j ≤ 30 := by
  simp only [Interval, Timeout, Minute, Second] at h
  omega

/-- C6 (amended): for `WaitForSubscriptionState` and
`WaitForClusterServiceVersionState`, when the predicate keeps waiting on probes
1 to j and signals a fatal error `e` on probe j + 1, that probe falling within
the timeout, the wait performs exactly j + 1 fetches (and j sleeps) and returns
the state of that last fetch with the error `errors.Wrapf(e, ...)`: a new error
wrapping `e`, which differs from the error of a timeout unless `e` is the
timeout sentinel itself. -/
theorem WaitFor_fatal_stops (cs : Clients) (name ns : String) (w : World) (j : Nat) (d : Bool)
    (e : GoError) (hj : j * Interval ≤ Timeout) :
    (∀ inState : Option v1alpha1.Subscription → Option GoError → Option (Bool × Option GoError),
      (∀ i, i < j →
        inState (cs.SubscriptionsGet (World.gets w Kind.subscription + i) ns name).1
          (cs.SubscriptionsGet (World.gets w Kind.subscription + i) ns name).2
          = some (false, none)) →
      inState (cs.SubscriptionsGet (World.gets w Kind.subscription + j) ns name).1
          (cs.SubscriptionsGet (World.gets w Kind.subscription + j) ns name).2
          = some (d, some e) →
      ∃ w1, WaitForSubscriptionState cs name ns inState w
          = some (((cs.SubscriptionsGet (World.gets w Kind.subscription + j) ns name).1,
              some (GoError.wrapf "subscription %s is not in desired state, got: %+v"
                [FmtArg.str name,
                  FmtArg.subscription
                    (cs.SubscriptionsGet (World.gets w Kind.subscription + j) ns name).1] e)),
            w1) ∧
        World.gets w1 Kind.subscription = World.gets w Kind.subscription + (j + 1) ∧
        World.sleeps w1 = World.sleeps w + j ∧
        (e ≠ ErrWaitTimeout →
          GoError.wrapf "subscription %s is not in desired state, got: %+v"
            [FmtArg.str name,
              FmtArg.subscription
                (cs.SubscriptionsGet (World.gets w Kind.subscription + j) ns name).1] e
          ≠ GoError.wrapf "subscription %s is not in desired state, got: %+v"
            [FmtArg.str name,
              FmtArg.subscription
                (cs.SubscriptionsGet (World.gets w Kind.subscription + j) ns name).1]
            ErrWaitTimeout)) ∧
    (∀ inState : Option v1alpha1.ClusterServiceVersion → Option GoError →
        Option (Bool × Option GoError),
      (∀ i, i < j →
        inState
          (cs.ClusterServiceVersionsGet (World.gets w Kind.clusterServiceVersion + i) ns name).1
          (cs.ClusterServiceVersionsGet (World.gets w Kind.clusterServiceVersion + i) ns name).2
          = some (false, none)) →
      inState
          (cs.ClusterServiceVersionsGet (World.gets w Kind.clusterServiceVersion + j) ns name).1
          (cs.ClusterServiceVersionsGet (World.gets w Kind.clusterServiceVersion + j) ns name).2
          = some (d, some e) →
      ∃ w1, WaitForClusterServiceVersionState cs name ns inState w
          = some
            (((cs.ClusterServiceVersionsGet (World.gets w Kind.clusterServiceVersion + j)
                ns name).1,
              some (GoError.wrapf "clusterserviceversion %s is not in desired state, got: %+v"
                [FmtArg.str name,
                  FmtArg.csv
                    (cs.ClusterServiceVersionsGet (World.gets w Kind.clusterServiceVersion + j)
                      ns name).1] e)),
            w1) ∧
        World.gets w1 Kind.clusterServiceVersion
          = World.gets w Kind.clusterServiceVersion + (j + 1) ∧
        World.sleeps w1 = World.sleeps w + j ∧
        (e ≠ ErrWaitTimeout →
          GoError.wrapf "clusterserviceversion %s is not in desired state, got: %+v"
            [FmtArg.str name,
              FmtArg.csv
                (cs.ClusterServiceVersionsGet (World.gets w Kind.clusterServiceVersion + j)
                  ns name).1] e
          ≠ GoError.wrapf "clusterserviceversion %s is not in desired state, got: %+v"
            [FmtArg.str name,
              FmtArg.csv
                (cs.ClusterServiceVersionsGet (World.gets w Kind.clusterServiceVersion + j)
                  ns name).1]
            ErrWaitTimeout)) := by
  have hj30 := ticks_within j hj
  refine ⟨?_, ?_⟩
  · intro inState hwait hstop
    refine ⟨_, WaitForSubscriptionState_stop cs name ns inState w j d (some e) hj30 hwait hstop
      (Or.inr (by simp)), ?_, ?_, ?_⟩
    · rw [gets_append]
      have : World.gets (Event.get Kind.subscription ns name ::
          ticksLog (Event.get Kind.subscription ns name) Interval j) Kind.subscription
          = World.gets (ticksLog (Event.get Kind.subscription ns name) Interval j)
            Kind.subscription + 1 := by
        simp [World.gets, Event.isGet]
      rw [this, gets_ticksLog]
    · rw [sleeps_append]
      have : World.sleeps (Event.get Kind.subscription ns name ::
          ticksLog (Event.get Kind.subscription ns name) Interval j)
          = World.sleeps (ticksLog (Event.get Kind.subscription ns name) Interval j) := by
        simp [World.sleeps, Event.isSleep]
      rw [this, sleeps_ticksLog]
    · intro hne h
      injection h with _ _ h3
      exact hne h3
  · intro inState hwait hstop
    refine ⟨_, WaitForClusterServiceVersionState_stop cs name ns inState w j d (some e) hj30
      hwait hstop (Or.inr (by simp)), ?_, ?_, ?_⟩
    · rw [gets_append]
      have : World.gets (Event.get Kind.clusterServiceVersion ns name ::
          ticksLog (Event.get Kind.clusterServiceVersion ns name) Interval j)
          Kind.clusterServiceVersion
          = World.gets (ticksLog (Event.get Kind.clusterServiceVersion ns name) Interval j)
            Kind.clusterServiceVersion + 1 := by
        simp [World.gets, Event.isGet]
      rw [this, gets_ticksLog]
    · rw [sleeps_append]
      have : World.sleeps (Event.get Kind.clusterServiceVersion ns name ::
          ticksLog (Event.get Kind.clusterServiceVersion ns name) Interval j)
          = World.sleeps (ticksLog (Event.get Kind.clusterServiceVersion ns name) Interval j) := by
        simp [World.sleeps, Event.isSleep]
      rw [this, sleeps_ticksLog]
    · intro hne h
      injection h with _ _ h3
      exact hne h3

/-- C6 (amended) at a concrete input: two probes that keep waiting, then
permission denied on probe 3. -/
theorem WaitFor_fatal_stops_witness :
    (∃ w1, WaitForSubscriptionState flaky_clients "sub" OperatorsNamespace
          IsSubscriptionInstalledCSVPresent []
        = some (((flaky_clients.SubscriptionsGet (World.gets [] Kind.subscription + 2)
              OperatorsNamespace "sub").1,
            some (GoError.wrapf "subscription %s is not in desired state, got: %+v"
              [FmtArg.str "sub",
                FmtArg.subscription
                  (flaky_clients.SubscriptionsGet (World.gets [] Kind.subscription + 2)
                    OperatorsNamespace "sub").1] errForbidden)),
          w1) ∧
      World.gets w1 Kind.subscription = World.gets [] Kind.subscription + (2 + 1) ∧
      World.sleeps w1 = World.sleeps [] + 2 ∧
      (errForbidden ≠ ErrWaitTimeout →
        GoError.wrapf "subscription %s is not in desired state, got: %+v"
          [FmtArg.str "sub",
            FmtArg.subscription
              (flaky_clients.SubscriptionsGet (World.gets [] Kind.subscription + 2)
                OperatorsNamespace "sub").1] errForbidden
        ≠ GoError.wrapf "subscription %s is not in desired state, got: %+v"
          [FmtArg.str "sub",
            FmtArg.subscription
              (flaky_clients.SubscriptionsGet (World.gets [] Kind.subscription + 2)
                OperatorsNamespace "sub").1]
          ErrWaitTimeout)) ∧
    2 * Interval ≤ Timeout :=
  ⟨(WaitFor_fatal_stops flaky_clients "sub" OperatorsNamespace [] 2 false errForbidden
      (by decide)).1 IsSubscriptionInstalledCSVPresent
      (fun i hi => by
        have h2 : World.gets [] Kind.subscription + i < 2 := by simpa [World.gets] using hi
        simp only [flaky_clients, h2, if_true]
        decide)
      (by decide),
    by decide⟩

/-! ### The log of a poll -/

theorem gets_pollLog (w : World) (k : Kind) (ns name : String) (interval j : Nat) :
    World.gets (w ++ Event.get k ns name :: ticksLog (Event.get k ns name) interval j) k
      = World.gets w k + (j + 1) := by
  rw [gets_append]
  have : World.gets (Event.get k ns name :: ticksLog (Event.get k ns name) interval j) k
      = World.gets (ticksLog (Event.get k ns name) interval j) k + 1 := by
    simp [World.gets, Event.isGet]
  rw [this, gets_ticksLog]

theorem gets_pollLog_timeout (w : World) (k : Kind) (ns name : String) (interval j : Nat) :
    World.gets (w ++ Event.get k ns name :: ticksLog (Event.get k ns name) interval j
        ++ [Event.sleep interval]) k
      = World.gets w k + (j + 1) := by
  rw [gets_append, gets_pollLog, gets_sleep_one]
  rfl

theorem sleeps_pollLog (w : World) (k : Kind) (ns name : String) (interval j : Nat) :
    World.sleeps (w ++ Event.get k ns name :: ticksLog (Event.get k ns name) interval j)
      = World.sleeps w + j := by
  rw [sleeps_append]
  have : World.sleeps (Event.get k ns name :: ticksLog (Event.get k ns name) interval j)
      = World.sleeps (ticksLog (Event.get k ns name) interval j) := by
    simp [World.sleeps, Event.isSleep]
  rw [this, sleeps_ticksLog]

theorem slept_pollLog_timeout (w : World) (k : Kind) (ns name : String) (interval j : Nat) :
    World.slept (w ++ Event.get k ns name :: ticksLog (Event.get k ns name) interval j
        ++ [Event.sleep interval])
      = World.slept w + (j + 1) * interval := by
  rw [slept_append, slept_append]
  have h1 : World.slept (Event.get k ns name :: ticksLog (Event.get k ns name) interval j)
      = World.slept (ticksLog (Event.get k ns name) interval j) := by
    simp [World.slept]
  have h2 : World.slept [Event.sleep interval] = interval := by
    simp [World.slept]
  rw [h1, h2, slept_ticksLog, Nat.succ_mul, Nat.add_assoc]

/-- C7: for `WaitForSubscriptionState` and `WaitForClusterServiceVersionState`,
whatever the accessor and the predicate, a run that returns (with nil error, with
a wrapped fatal error or with the wrapped timeout error) has fetched at least
once and hands back exactly the object of the most recent fetch, the one whose
call index is the last of the log; when the error is nil the predicate returned
done with nil error on that object and that fetch's error. A predicate that
never panics makes the wait return. -/
theorem WaitFor_returns_last_fetch (cs : Clients) (name ns : String) (w : World) :
    (∀ (inState : Option v1alpha1.Subscription → Option GoError →
          Option (Bool × Option GoError))
        (st : Option v1alpha1.Subscription) (err : Option GoError) (w1 : World),
      WaitForSubscriptionState cs name ns inState w = some ((st, err), w1) →
      World.gets w Kind.subscription < World.gets w1 Kind.subscription ∧
      st = (cs.SubscriptionsGet (World.gets w1 Kind.subscription - 1) ns name).1 ∧
      (err = none →
        inState st (cs.SubscriptionsGet (World.gets w1 Kind.subscription - 1) ns name).2
          = some (true, none))) ∧
    (∀ inState : Option v1alpha1.Subscription → Option GoError →
          Option (Bool × Option GoError),
      (∀ s e, (inState s e).isSome = true) →
      (WaitForSubscriptionState cs name ns inState w).isSome = true) ∧
    (∀ (inState : Option v1alpha1.ClusterServiceVersion → Option GoError →
          Option (Bool × Option GoError))
        (st : Option v1alpha1.ClusterServiceVersion) (err : Option GoError) (w1 : World),
      WaitForClusterServiceVersionState cs name ns inState w = some ((st, err), w1) →
      World.gets w Kind.clusterServiceVersion < World.gets w1 Kind.clusterServiceVersion ∧
      st = (cs.ClusterServiceVersionsGet
          (World.gets w1 Kind.clusterServiceVersion - 1) ns name).1 ∧
      (err = none →
        inState st (cs.ClusterServiceVersionsGet
            (World.gets w1 Kind.clusterServiceVersion - 1) ns name).2
          = some (true, none))) ∧
    (∀ inState : Option v1alpha1.ClusterServiceVersion → Option GoError →
          Option (Bool × Option GoError),
      (∀ s e, (inState s e).isSome = true) →
      (WaitForClusterServiceVersionState cs name ns inState w).isSome = true) := by
  refine ⟨?_, ?_, ?_, ?_⟩
  · intro inState st err w1 h
    rcases WaitForSubscriptionState_cases cs name ns inState w with
      ⟨j, _, _, hp⟩ | ⟨j, d, fe, _, hs, hd, hp⟩ | hp
    · rw [hp] at h; simp at h
    · rw [hp] at h
      simp only [Option.some.injEq, Prod.mk.injEq] at h
      obtain ⟨⟨h1, h2⟩, h3⟩ := h
      subst h1 h2 h3
      rw [gets_pollLog]
      have hidx : World.gets w Kind.subscription + (j + 1) - 1
          = World.gets w Kind.subscription + j := by omega
      rw [hidx]
      refine ⟨by omega, rfl, ?_⟩
      intro hnone
      cases fe with
      | some e => simp at hnone
      | none =>
        rcases hd with hd | hd
        · rw [hs, hd]
        · exact absurd rfl hd
    · rw [hp] at h
      simp only [Option.some.injEq, Prod.mk.injEq] at h
      obtain ⟨⟨h1, h2⟩, h3⟩ := h
      subst h1 h2 h3
      rw [gets_pollLog_timeout]
      have hidx : World.gets w Kind.subscription + (30 + 1) - 1
          = World.gets w Kind.subscription + 30 := by omega
      rw [hidx]
      refine ⟨by omega, rfl, ?_⟩
      intro hnone
      simp at hnone
  · intro inState htotal
    rcases WaitForSubscriptionState_cases cs name ns inState w with
      ⟨j, _, hn, _⟩ | ⟨j, d, fe, _, _, _, hp⟩ | hp
    · have := htotal (cs.SubscriptionsGet (World.gets w Kind.subscription + j) ns name).1
        (cs.SubscriptionsGet (World.gets w Kind.subscription + j) ns name).2
      rw [hn] at this
      simp at this
    · rw [hp]; rfl
    · rw [hp]; rfl
  · intro inState st err w1 h
    rcases WaitForClusterServiceVersionState_cases cs name ns inState w with
      ⟨j, _, _, hp⟩ | ⟨j, d, fe, _, hs, hd, hp⟩ | hp
    · rw [hp] at h; simp at h
    · rw [hp] at h
      simp only [Option.some.injEq, Prod.mk.injEq] at h
      obtain ⟨⟨h1, h2⟩, h3⟩ := h
      subst h1 h2 h3
      rw [gets_pollLog]
      have hidx : World.gets w Kind.clusterServiceVersion + (j + 1) - 1
          = World.gets w Kind.clusterServiceVersion + j := by omega
      rw [hidx]
      refine ⟨by omega, rfl, ?_⟩
      intro hnone
      cases fe with
      | some e => simp at hnone
      | none =>
        rcases hd with hd | hd
        · rw [hs, hd]
        · exact absurd rfl hd
    · rw [hp] at h
      simp only [Option.some.injEq, Prod.mk.injEq] at h
      obtain ⟨⟨h1, h2⟩, h3⟩ := h
      subst h1 h2 h3
      rw [gets_pollLog_timeout]
      have hidx : World.gets w Kind.clusterServiceVersion + (30 + 1) - 1
          = World.gets w Kind.clusterServiceVersion + 30 := by omega
      rw [hidx]
      refine ⟨by omega, rfl, ?_⟩
      intro hnone
      simp at hnone
  · intro inState htotal
    rcases WaitForClusterServiceVersionState_cases cs name ns inState w with
      ⟨j, _, hn, _⟩ | ⟨j, d, fe, _, _, _, hp⟩ | hp
    · have := htotal (cs.ClusterServiceVersionsGet
          (World.gets w Kind.clusterServiceVersion + j) ns name).1
        (cs.ClusterServiceVersionsGet (World.gets w Kind.clusterServiceVersion + j) ns name).2
      rw [hn] at this
      simp at this
    · rw [hp]; rfl
    · rw [hp]; rfl

/-- The run of the CSV wait against `installing_clients`: success at probe 4. -/
theorem installing_run :
    WaitForClusterServiceVersionState installing_clients "csv" OperatorsNamespace
        IsCSVSucceeded []
      = some ((some csvSucceeded, none),
          [] ++ Event.get Kind.clusterServiceVersion OperatorsNamespace "csv" ::
            ticksLog (Event.get Kind.clusterServiceVersion OperatorsNamespace "csv") Interval 3) :=
  WaitForClusterServiceVersionState_stop installing_clients "csv" OperatorsNamespace
    IsCSVSucceeded [] 3 true none (by omega)
    (fun i hi => by
      have h3 : World.gets [] Kind.clusterServiceVersion + i < 3 := by
        simpa [World.gets] using hi
      simp only [installing_clients, h3, if_true]
      decide)
    (by decide) (Or.inl rfl)

/-- C7 at concrete inputs: the CSV wait that succeeds at probe 4 hands back the
CSV of the 4th fetch, and a wait whose predicate never panics returns. -/
theorem WaitFor_returns_last_fetch_witness :
    (World.gets [] Kind.clusterServiceVersion
        < World.gets ([] ++ Event.get Kind.clusterServiceVersion OperatorsNamespace "csv" ::
            ticksLog (Event.get Kind.clusterServiceVersion OperatorsNamespace "csv") Interval 3)
          Kind.clusterServiceVersion ∧
      some csvSucceeded = (installing_clients.ClusterServiceVersionsGet
        (World.gets ([] ++ Event.get Kind.clusterServiceVersion OperatorsNamespace "csv" ::
            ticksLog (Event.get Kind.clusterServiceVersion OperatorsNamespace "csv") Interval 3)
          Kind.clusterServiceVersion - 1) OperatorsNamespace "csv").1 ∧
      ((none : Option GoError) = none →
        IsCSVSucceeded (some csvSucceeded) (installing_clients.ClusterServiceVersionsGet
          (World.gets ([] ++ Event.get Kind.clusterServiceVersion OperatorsNamespace "csv" ::
              ticksLog (Event.get Kind.clusterServiceVersion OperatorsNamespace "csv") Interval 3)
            Kind.clusterServiceVersion - 1) OperatorsNamespace "csv").2
          = some (true, none))) ∧
    (WaitForSubscriptionState pending_clients "sub" OperatorsNamespace alwaysDone []).isSome
      = true :=
  ⟨(WaitFor_returns_last_fetch installing_clients "csv" OperatorsNamespace []).2.2.1
      IsCSVSucceeded (some csvSucceeded) none _ installing_run,
    (WaitFor_returns_last_fetch pending_clients "sub" OperatorsNamespace []).2.1
      alwaysDone (fun _ _ => rfl)⟩

/-- C8: with the predicate done with nil error on the first probe, each of
`WaitForSubscriptionState`, `WaitForClusterServiceVersionState` and
`WaitForTektonAddonState` returns a nil error after exactly one fetch and no
sleep: the log grows by that single Get. -/
theorem immediate_first_probe (cs : Clients) (clients : TektonAddonInterface)
    (name ns : String) (w : World) :
    (∀ inState : Option v1alpha1.Subscription → Option GoError →
          Option (Bool × Option GoError),
      inState (cs.SubscriptionsGet (World.gets w Kind.subscription) ns name).1
          (cs.SubscriptionsGet (World.gets w Kind.subscription) ns name).2 = some (true, none) →
      WaitForSubscriptionState cs name ns inState w
        = some (((cs.SubscriptionsGet (World.gets w Kind.subscription) ns name).1, none),
            w ++ [Event.get Kind.subscription ns name]) ∧
      World.gets (w ++ [Event.get Kind.subscription ns name]) Kind.subscription
        = World.gets w Kind.subscription + 1 ∧
      World.sleeps (w ++ [Event.get Kind.subscription ns name]) = World.sleeps w) ∧
    (∀ inState : Option v1alpha1.ClusterServiceVersion → Option GoError →
          Option (Bool × Option GoError),
      inState (cs.ClusterServiceVersionsGet (World.gets w Kind.clusterServiceVersion) ns name).1
          (cs.ClusterServiceVersionsGet (World.gets w Kind.clusterServiceVersion) ns name).2
          = some (true, none) →
      WaitForClusterServiceVersionState cs name ns inState w
        = some (((cs.ClusterServiceVersionsGet (World.gets w Kind.clusterServiceVersion)
              ns name).1, none),
            w ++ [Event.get Kind.clusterServiceVersion ns name]) ∧
      World.gets (w ++ [Event.get Kind.clusterServiceVersion ns name]) Kind.clusterServiceVersion
        = World.gets w Kind.clusterServiceVersion + 1 ∧
      World.sleeps (w ++ [Event.get Kind.clusterServiceVersion ns name]) = World.sleeps w) ∧
    (∀ inState : Option v1alpha1.TektonAddon → Option GoError →
          Option (Bool × Option GoError),
      inState (clients.Get (World.gets w Kind.tektonAddon) name).1
          (clients.Get (World.gets w Kind.tektonAddon) name).2 = some (true, none) →
      (∃ st, WaitForTektonAddonState clients name inState w
        = some ((st, none), w ++ [Event.get Kind.tektonAddon "" name])) ∧
      World.gets (w ++ [Event.get Kind.tektonAddon "" name]) Kind.tektonAddon
        = World.gets w Kind.tektonAddon + 1 ∧
      World.sleeps (w ++ [Event.get Kind.tektonAddon "" name]) = World.sleeps w) := by
  have hsl : ∀ ev : Event, ev.isSleep = false → World.sleeps (w ++ [ev]) = World.sleeps w := by
    intro ev hev
    simp [World.sleeps, List.countP_append, hev]
  refine ⟨?_, ?_, ?_⟩
  · intro inState h
    have hs := WaitForSubscriptionState_stop cs name ns inState w 0 true none (by omega)
      (fun i hi => absurd hi (by omega)) (by simpa using h) (Or.inl rfl)
    rw [Nat.add_zero] at hs
    exact ⟨by rw [hs]; rfl, gets_first _ _ _ _, hsl _ rfl⟩
  · intro inState h
    have hs := WaitForClusterServiceVersionState_stop cs name ns inState w 0 true none (by omega)
      (fun i hi => absurd hi (by omega)) (by simpa using h) (Or.inl rfl)
    rw [Nat.add_zero] at hs
    exact ⟨by rw [hs]; rfl, gets_first _ _ _ _, hsl _ rfl⟩
  · intro inState h
    have hs := WaitForTektonAddonState_stop clients name inState w 0 true none (by omega)
      (fun i hi => absurd hi (by omega)) (by simpa using h) (Or.inl rfl)
    exact ⟨⟨none, by rw [hs]; rfl⟩, gets_first _ _ _ _, hsl _ rfl⟩

/-- C8 at concrete inputs: a predicate that is done at once, on each of the
three waits. -/
theorem immediate_first_probe_witness :
    (WaitForSubscriptionState pending_clients "sub" OperatorsNamespace alwaysDone []
        = some (((pending_clients.SubscriptionsGet (World.gets [] Kind.subscription)
              OperatorsNamespace "sub").1, none),
            [] ++ [Event.get Kind.subscription OperatorsNamespace "sub"]) ∧
      World.gets ([] ++ [Event.get Kind.subscription OperatorsNamespace "sub"]) Kind.subscription
        = World.gets [] Kind.subscription + 1 ∧
      World.sleeps ([] ++ [Event.get Kind.subscription OperatorsNamespace "sub"])
        = World.sleeps []) ∧
    (WaitForClusterServiceVersionState pending_clients "csv" OperatorsNamespace alwaysDone []
        = some (((pending_clients.ClusterServiceVersionsGet
              (World.gets [] Kind.clusterServiceVersion) OperatorsNamespace "csv").1, none),
            [] ++ [Event.get Kind.clusterServiceVersion OperatorsNamespace "csv"]) ∧
      World.gets ([] ++ [Event.get Kind.clusterServiceVersion OperatorsNamespace "csv"])
          Kind.clusterServiceVersion
        = World.gets [] Kind.clusterServiceVersion + 1 ∧
      World.sleeps ([] ++ [Event.get Kind.clusterServiceVersion OperatorsNamespace "csv"])
        = World.sleeps []) ∧
    ((∃ st, WaitForTektonAddonState scenarioB_clients "addon" alwaysDone []
        = some ((st, none), [] ++ [Event.get Kind.tektonAddon "" "addon"])) ∧
      World.gets ([] ++ [Event.get Kind.tektonAddon "" "addon"]) Kind.tektonAddon
        = World.gets [] Kind.tektonAddon + 1 ∧
      World.sleeps ([] ++ [Event.get Kind.tektonAddon "" "addon"]) = World.sleeps []) :=
  ⟨(immediate_first_probe pending_clients scenarioB_clients "sub" OperatorsNamespace []).1
      alwaysDone rfl,
    (immediate_first_probe pending_clients scenarioB_clients "csv" OperatorsNamespace []).2.1
      alwaysDone rfl,
    (immediate_first_probe pending_clients scenarioB_clients "addon" OperatorsNamespace []).2.2
      alwaysDone rfl⟩

theorem olm_deadline : Timeout ≤ (30 + 1) * Interval := by decide

theorem config_deadline : APITimeout ≤ (240 + 1) * APIRetry := by decide

/-- C9 (as stated, refuted): the error of a timeout is not distinguishable from
the error returned on every fatal predicate error. Against objects that never
reach the awaited state, the wait whose predicate keeps waiting on every probe
and the wait whose predicate signals the sentinel wait.ErrWaitTimeout as its
fatal error on probe 1 hand back the same state and the same error. -/
theorem timeout_error_not_distinguishable :
    (∀ i, IsSubscriptionInstalledCSVPresent
        (pending_clients.SubscriptionsGet (World.gets [] Kind.subscription + i)
          OperatorsNamespace "sub").1
        (pending_clients.SubscriptionsGet (World.gets [] Kind.subscription + i)
          OperatorsNamespace "sub").2 = some (false, none)) ∧
    (WaitForSubscriptionState pending_clients "sub" OperatorsNamespace
        IsSubscriptionInstalledCSVPresent []).map Prod.fst
      = some (some subPending,
          some (GoError.wrapf "subscription %s is not in desired state, got: %+v"
            [FmtArg.str "sub", FmtArg.subscription (some subPending)] ErrWaitTimeout)) ∧
    sentinelFatal (pending_clients.SubscriptionsGet 0 OperatorsNamespace "sub").1
        (pending_clients.SubscriptionsGet 0 OperatorsNamespace "sub").2
      = some (false, some ErrWaitTimeout) ∧
    (WaitForSubscriptionState pending_clients "sub" OperatorsNamespace sentinelFatal []).map
        Prod.fst
      = some (some subPending,
          some (GoError.wrapf "subscription %s is not in desired state, got: %+v"
            [FmtArg.str "sub", FmtArg.subscription (some subPending)] ErrWaitTimeout)) ∧
    (WaitForTektonAddonState scenarioB_clients "addon"
        (IsTektonAddonReady scenarioB_IsReady) []).map Prod.fst
      = (WaitForTektonAddonState scenarioB_clients "addon" sentinelFatal []).map Prod.fst := by
  refine ⟨fun _ => rfl, ?_, rfl, ?_, ?_⟩
  · rw [WaitForSubscriptionState_timeout pending_clients "sub" OperatorsNamespace
      IsSubscriptionInstalledCSVPresent [] (fun _ _ => rfl)]
    rfl
  · rw [WaitForSubscriptionState_stop pending_clients "sub" OperatorsNamespace sentinelFatal []
      0 false (some ErrWaitTimeout) (by omega) (fun i hi => absurd hi (by omega)) rfl
      (Or.inr (by simp))]
    rfl
  · rw [WaitForTektonAddonState_timeout scenarioB_clients "addon"
        (IsTektonAddonReady scenarioB_IsReady) [] (fun _ _ => rfl),
      WaitForTektonAddonState_stop scenarioB_clients "addon" sentinelFatal []
        0 false (some ErrWaitTimeout) (by omega) (fun i hi => absurd hi (by omega)) rfl
        (Or.inr (by simp))]
    rfl

/-- C9 (amended): with a predicate that is not done and not fatal on every probe,
each of `WaitForSubscriptionState`, `WaitForClusterServiceVersionState` and
`WaitForTektonAddonState` returns; by then the intervals slept in the poll add
up to at least the timeout of its policy; the error returned is the wrapper of
that wait around the sentinel wait.ErrWaitTimeout, with the state handed back as
its operand; and it differs from the error the same wait returns for a fatal
predicate error, except when that fatal error is the sentinel itself. -/
theorem never_done_times_out (cs : Clients) (clients : TektonAddonInterface)
    (name ns : String) (w : World) :
    (∀ inState : Option v1alpha1.Subscription → Option GoError →
          Option (Bool × Option GoError),
      (∀ i, inState (cs.SubscriptionsGet (World.gets w Kind.subscription + i) ns name).1
          (cs.SubscriptionsGet (World.gets w Kind.subscription + i) ns name).2
          = some (false, none)) →
      ∃ st err w1, WaitForSubscriptionState cs name ns inState w = some ((st, some err), w1) ∧
        World.slept w + Timeout ≤ World.slept w1 ∧
        err = GoError.wrapf "subscription %s is not in desired state, got: %+v"
            [FmtArg.str name, FmtArg.subscription st] ErrWaitTimeout ∧
        ∀ (e : GoError) (st1 : Option v1alpha1.Subscription), e ≠ ErrWaitTimeout →
          GoError.wrapf "subscription %s is not in desired state, got: %+v"
            [FmtArg.str name, FmtArg.subscription st1] e ≠ err) ∧
    (∀ inState : Option v1alpha1.ClusterServiceVersion → Option GoError →
          Option (Bool × Option GoError),
      (∀ i, inState
          (cs.ClusterServiceVersionsGet (World.gets w Kind.clusterServiceVersion + i) ns name).1
          (cs.ClusterServiceVersionsGet (World.gets w Kind.clusterServiceVersion + i) ns name).2
          = some (false, none)) →
      ∃ st err w1,
        WaitForClusterServiceVersionState cs name ns inState w = some ((st, some err), w1) ∧
        World.slept w + Timeout ≤ World.slept w1 ∧
        err = GoError.wrapf "clusterserviceversion %s is not in desired state, got: %+v"
            [FmtArg.str name, FmtArg.csv st] ErrWaitTimeout ∧
        ∀ (e : GoError) (st1 : Option v1alpha1.ClusterServiceVersion), e ≠ ErrWaitTimeout →
          GoError.wrapf "clusterserviceversion %s is not in desired state, got: %+v"
            [FmtArg.str name, FmtArg.csv st1] e ≠ err) ∧
    (∀ inState : Option v1alpha1.TektonAddon → Option GoError →
          Option (Bool × Option GoError),
      (∀ i, inState (clients.Get (World.gets w Kind.tektonAddon + i) name).1
          (clients.Get (World.gets w Kind.tektonAddon + i) name).2 = some (false, none)) →
      ∃ st err w1, WaitForTektonAddonState clients name inState w = some ((st, some err), w1) ∧
        World.slept w + APITimeout ≤ World.slept w1 ∧
        err = GoError.wrapf "tektonaddon %s is not in desired state, got: %+v: %w"
            [FmtArg.str name, FmtArg.addon st] ErrWaitTimeout ∧
        ∀ (e : GoError) (st1 : Option v1alpha1.TektonAddon), e ≠ ErrWaitTimeout →
          GoError.wrapf "tektonaddon %s is not in desired state, got: %+v: %w"
            [FmtArg.str name, FmtArg.addon st1] e ≠ err) := by
  refine ⟨?_, ?_, ?_⟩
  · intro inState h
    refine ⟨_, _, _, WaitForSubscriptionState_timeout cs name ns inState w (fun i _ => h i),
      ?_, rfl, ?_⟩
    · rw [slept_pollLog_timeout]
      exact Nat.add_le_add_left olm_deadline _
    · intro e st1 hne heq
      injection heq with _ _ h3
      exact hne h3
  · intro inState h
    refine ⟨_, _, _,
      WaitForClusterServiceVersionState_timeout cs name ns inState w (fun i _ => h i),
      ?_, rfl, ?_⟩
    · rw [slept_pollLog_timeout]
      exact Nat.add_le_add_left olm_deadline _
    · intro e st1 hne heq
      injection heq with _ _ h3
      exact hne h3
  · intro inState h
    refine ⟨_, _, _, WaitForTektonAddonState_timeout clients name inState w (fun i _ => h i),
      ?_, rfl, ?_⟩
    · rw [slept_pollLog_timeout]
      exact Nat.add_le_add_left config_deadline _
    · intro e st1 hne heq
      injection heq with _ _ h3
      exact hne h3

/-- C9 (amended) at concrete inputs: objects that never reach the awaited state,
on each of the three waits. -/
theorem never_done_times_out_witness :
    (∃ st err w1, WaitForSubscriptionState pending_clients "sub" OperatorsNamespace
          IsSubscriptionInstalledCSVPresent [] = some ((st, some err), w1) ∧
        World.slept [] + Timeout ≤ World.slept w1 ∧
        err = GoError.wrapf "subscription %s is not in desired state, got: %+v"
            [FmtArg.str "sub", FmtArg.subscription st] ErrWaitTimeout ∧
        ∀ (e : GoError) (st1 : Option v1alpha1.Subscription), e ≠ ErrWaitTimeout →
          GoError.wrapf "subscription %s is not in desired state, got: %+v"
            [FmtArg.str "sub", FmtArg.subscription st1] e ≠ err) ∧
    (∃ st err w1, WaitForClusterServiceVersionState pending_clients "sub" OperatorsNamespace
          IsCSVSucceeded [] = some ((st, some err), w1) ∧
        World.slept [] + Timeout ≤ World.slept w1 ∧
        err = GoError.wrapf "clusterserviceversion %s is not in desired state, got: %+v"
            [FmtArg.str "sub", FmtArg.csv st] ErrWaitTimeout ∧
        ∀ (e : GoError) (st1 : Option v1alpha1.ClusterServiceVersion), e ≠ ErrWaitTimeout →
          GoError.wrapf "clusterserviceversion %s is not in desired state, got: %+v"
            [FmtArg.str "sub", FmtArg.csv st1] e ≠ err) ∧
    (∃ st err w1, WaitForTektonAddonState scenarioB_clients "sub"
          (IsTektonAddonReady scenarioB_IsReady) [] = some ((st, some err), w1) ∧
        World.slept [] + APITimeout ≤ World.slept w1 ∧
        err = GoError.wrapf "tektonaddon %s is not in desired state, got: %+v: %w"
            [FmtArg.str "sub", FmtArg.addon st] ErrWaitTimeout ∧
        ∀ (e : GoError) (st1 : Option v1alpha1.TektonAddon), e ≠ ErrWaitTimeout →
          GoError.wrapf "tektonaddon %s is not in desired state, got: %+v: %w"
            [FmtArg.str "sub", FmtArg.addon st1] e ≠ err) :=
  ⟨(never_done_times_out pending_clients scenarioB_clients "sub" OperatorsNamespace []).1
      IsSubscriptionInstalledCSVPresent (fun _ => rfl),
    (never_done_times_out pending_clients scenarioB_clients "sub" OperatorsNamespace []).2.1
      IsCSVSucceeded (fun _ => rfl),
    (never_done_times_out pending_clients scenarioB_clients "sub" OperatorsNamespace []).2.2
      (IsTektonAddonReady scenarioB_IsReady) (fun _ => rfl)⟩

/-! ### The workflows -/

theorem mem_ticksLog (e ev : Event) (interval j : Nat) (h : ev ∈ ticksLog e interval j) :
    ev = e ∨ ev = Event.sleep interval := by
  induction j with
  | zero => simp [ticksLog] at h
  | succ j ih =>
    simp only [ticksLog, List.mem_cons] at h
    rcases h with h | h | h
    · exact Or.inr h
    · exact Or.inl h
    · exact ih h

theorem gets_tail (w tail : World) (k k1 : Kind) (ns name : String) (interval : Nat)
    (hk : k ≠ k1)
    (h : ∀ ev, ev ∈ tail → ev = Event.get k ns name ∨ ev = Event.sleep interval) :
    World.gets (w ++ tail) k1 = World.gets w k1 := by
  rw [gets_append]
  have h0 : World.gets tail k1 = 0 := by
    simp only [World.gets, List.countP_eq_zero]
    intro ev hev
    rcases h ev hev with h1 | h1 <;> subst h1 <;> simp [Event.isGet, hk]
  rw [h0]; rfl

/-- A subscription poll only adds Gets of that subscription and interval sleeps. -/
theorem WaitForSubscriptionState_log (cs : Clients) (name ns : String)
    (inState : Option v1alpha1.Subscription → Option GoError → Option (Bool × Option GoError))
    (w w1 : World) (r : GetResult v1alpha1.Subscription)
    (h : WaitForSubscriptionState cs name ns inState w = some (r, w1)) :
    ∃ tail, w1 = w ++ tail ∧
      ∀ ev, ev ∈ tail → ev = Event.get Kind.subscription ns name ∨ ev = Event.sleep Interval := by
  rcases WaitForSubscriptionState_cases cs name ns inState w with
    ⟨j, _, _, hp⟩ | ⟨j, d, fe, _, _, _, hp⟩ | hp
  · rw [hp] at h; simp at h
  · rw [hp] at h
    simp only [Option.some.injEq, Prod.mk.injEq] at h
    refine ⟨_, h.2.symm, ?_⟩
    intro ev hev
    rcases List.mem_cons.mp hev with h1 | h1
    · exact Or.inl h1
    · exact mem_ticksLog _ _ _ _ h1
  · rw [hp] at h
    simp only [Option.some.injEq, Prod.mk.injEq] at h
    refine ⟨_, by rw [← h.2, List.append_assoc], ?_⟩
    intro ev hev
    rcases List.mem_append.mp hev with h1 | h1
    · rcases List.mem_cons.mp h1 with h2 | h2
      · exact Or.inl h2
      · exact mem_ticksLog _ _ _ _ h2
    · exact Or.inr (by simpa using h1)

/-- A CSV poll only adds Gets of that CSV and interval sleeps. -/
theorem WaitForClusterServiceVersionState_log (cs : Clients) (name ns : String)
    (inState : Option v1alpha1.ClusterServiceVersion → Option GoError →
      Option (Bool × Option GoError))
    (w w1 : World) (r : GetResult v1alpha1.ClusterServiceVersion)
    (h : WaitForClusterServiceVersionState cs name ns inState w = some (r, w1)) :
    ∃ tail, w1 = w ++ tail ∧
      ∀ ev, ev ∈ tail →
        ev = Event.get Kind.clusterServiceVersion ns name ∨ ev = Event.sleep Interval := by
  rcases WaitForClusterServiceVersionState_cases cs name ns inState w with
    ⟨j, _, _, hp⟩ | ⟨j, d, fe, _, _, _, hp⟩ | hp
  · rw [hp] at h; simp at h
  · rw [hp] at h
    simp only [Option.some.injEq, Prod.mk.injEq] at h
    refine ⟨_, h.2.symm, ?_⟩
    intro ev hev
    rcases List.mem_cons.mp hev with h1 | h1
    · exact Or.inl h1
    · exact mem_ticksLog _ _ _ _ h1
  · rw [hp] at h
    simp only [Option.some.injEq, Prod.mk.injEq] at h
    refine ⟨_, by rw [← h.2, List.append_assoc], ?_⟩
    intro ev hev
    rcases List.mem_append.mp hev with h1 | h1
    · rcases List.mem_cons.mp h1 with h2 | h2
      · exact Or.inl h2
      · exact mem_ticksLog _ _ _ _ h2
    · exact Or.inr (by simpa using h1)

theorem SubscribeAndWaitForOperatorToBeReady_eq (cs : Clients)
    (subscriptionName channel catalogsource : String) (w : World) :
    SubscribeAndWaitForOperatorToBeReady cs subscriptionName channel catalogsource w =
      match createSubscription cs subscriptionName channel catalogsource w with
      | ((_, some err), w1) => some ((none, some err), w1)
      | ((_, none), w1) => pollStages cs subscriptionName w1 := rfl

theorem UptadeSubscriptionAndWaitForOperatorToBeReady_eq (cs : Clients)
    (subscriptionName channel : String) (w : World) :
    UptadeSubscriptionAndWaitForOperatorToBeReady cs subscriptionName channel w =
      match UpdateSubscription cs subscriptionName channel w with
      | none => none
      | some ((_, some err), w1) => some ((none, some err), w1)
      | some ((_, none), w1) => pollStages cs subscriptionName w1 := rfl

theorem createSubscription_log (cs : Clients) (name channel catalogsource : String)
    (w : World) :
    (createSubscription cs name channel catalogsource w).2
      = w ++ [Event.create (Subscription name channel catalogsource)] := by
  unfold createSubscription
  simp only [Clients.createSubscriptionCall]
  cases (cs.SubscriptionsCreate (List.countP Event.isCreate w)
    (Subscription name channel catalogsource)).2 <;> rfl

theorem UpdateSubscription_log (cs : Clients) (name channel : String) (w w1 : World)
    (r : GetResult v1alpha1.Subscription)
    (h : UpdateSubscription cs name channel w = some (r, w1)) :
    ∃ s, w1 = w ++ [Event.get Kind.subscription OperatorsNamespace name, Event.update s] := by
  unfold UpdateSubscription getSubcription at h
  simp only [Clients.getSubscription, Clients.updateSubscriptionCall] at h
  split at h
  · simp at h
  · simp at h
  · rename_i subscription w2 hget
    split at hget
    · simp at hget
    · simp only [Option.some.injEq, Prod.mk.injEq] at hget
      obtain ⟨_, hw2⟩ := hget
      subst hw2
      split at h
      · simp at h
      · rename_i spec _
        split at h <;>
          · simp only [Option.some.injEq, Prod.mk.injEq] at h
            exact ⟨_, by rw [← h.2, List.append_assoc]; rfl⟩

/-- The two polling stages are sequential and fail-fast. -/
theorem pollStages_spec (cs : Clients) (subscriptionName : String) (w1 : World) :
    (∀ st e w2,
      WaitForSubscriptionState cs subscriptionName OperatorsNamespace
          IsSubscriptionInstalledCSVPresent w1 = some ((st, some e), w2) →
      pollStages cs subscriptionName w1 = some ((none, some e), w2) ∧
      World.gets w2 Kind.clusterServiceVersion = World.gets w1 Kind.clusterServiceVersion) ∧
    (∀ subs w2,
      WaitForSubscriptionState cs subscriptionName OperatorsNamespace
          IsSubscriptionInstalledCSVPresent w1 = some ((some subs, none), w2) →
      (∀ c e w3,
        WaitForClusterServiceVersionState cs subs.Status.InstalledCSV OperatorsNamespace
            IsCSVSucceeded w2 = some ((c, some e), w3) →
        pollStages cs subscriptionName w1 = some ((none, some e), w3)) ∧
      (∀ c w3,
        WaitForClusterServiceVersionState cs subs.Status.InstalledCSV OperatorsNamespace
            IsCSVSucceeded w2 = some ((c, none), w3) →
        pollStages cs subscriptionName w1 = some ((some subs, none), w3)) ∧
      (∀ r w3, pollStages cs subscriptionName w1 = some (r, w3) →
        ∃ tail, w3 = w2 ++ tail ∧
          ∀ ev, ev ∈ tail →
            ev = Event.get Kind.clusterServiceVersion OperatorsNamespace subs.Status.InstalledCSV
              ∨ ev = Event.sleep Interval)) := by
  refine ⟨?_, ?_⟩
  · intro st e w2 h
    refine ⟨by simp only [pollStages, h], ?_⟩
    obtain ⟨tail, hw, ht⟩ := WaitForSubscriptionState_log cs subscriptionName OperatorsNamespace
      IsSubscriptionInstalledCSVPresent w1 w2 _ h
    rw [hw]
    exact gets_tail w1 tail Kind.subscription Kind.clusterServiceVersion OperatorsNamespace
      subscriptionName Interval (by decide) ht
  · intro subs w2 h
    refine ⟨?_, ?_, ?_⟩
    · intro c e w3 hc
      simp only [pollStages, h, hc]
    · intro c w3 hc
      simp only [pollStages, h, hc]
    · intro r w3 hr
      simp only [pollStages, h] at hr
      cases hc : WaitForClusterServiceVersionState cs subs.Status.InstalledCSV
          OperatorsNamespace IsCSVSucceeded w2 with
      | none => rw [hc] at hr; simp at hr
      | some x =>
        obtain ⟨⟨c, err⟩, w4⟩ := x
        have hlog := WaitForClusterServiceVersionState_log cs subs.Status.InstalledCSV
          OperatorsNamespace IsCSVSucceeded w2 w4 _ hc
        rw [hc] at hr
        cases err with
        | some e =>
          simp only [Option.some.injEq, Prod.mk.injEq] at hr
          rw [← hr.2]; exact hlog
        | none =>
          simp only [Option.some.injEq, Prod.mk.injEq] at hr
          rw [← hr.2]; exact hlog

/-- C10: both workflows are sequential and fail-fast. When the create or update
step returns an error, the workflow returns exactly that error and the log ends
with that step: no poll has fetched anything. When it returns nil, the
subscription poll runs next; if that poll returns an error, the workflow
returns exactly that error in the world the poll left, with no CSV fetched; if
it returns nil with subscription `subs`, the CSV poll runs on the CSV named
`subs.Status.InstalledCSV`, every event after the subscription poll is a Get of
that CSV or an interval sleep, and the workflow returns exactly the CSV poll's
error, or `subs` with nil error when that poll succeeds. -/
theorem workflows_sequential_fail_fast (cs : Clients)
    (subscriptionName channel catalogsource : String) (w : World) :
    (∀ x e w1,
      createSubscription cs subscriptionName channel catalogsource w = ((x, some e), w1) →
      SubscribeAndWaitForOperatorToBeReady cs subscriptionName channel catalogsource w
        = some ((none, some e), w1) ∧
      w1 = w ++ [Event.create (Subscription subscriptionName channel catalogsource)]) ∧
    (∀ x w1,
      createSubscription cs subscriptionName channel catalogsource w = ((x, none), w1) →
      (∀ st e w2,
        WaitForSubscriptionState cs subscriptionName OperatorsNamespace
            IsSubscriptionInstalledCSVPresent w1 = some ((st, some e), w2) →
        SubscribeAndWaitForOperatorToBeReady cs subscriptionName channel catalogsource w
          = some ((none, some e), w2) ∧
        World.gets w2 Kind.clusterServiceVersion = World.gets w Kind.clusterServiceVersion) ∧
      (∀ subs w2,
        WaitForSubscriptionState cs subscriptionName OperatorsNamespace
            IsSubscriptionInstalledCSVPresent w1 = some ((some subs, none), w2) →
        (∀ c e w3,
          WaitForClusterServiceVersionState cs subs.Status.InstalledCSV OperatorsNamespace
              IsCSVSucceeded w2 = some ((c, some e), w3) →
          SubscribeAndWaitForOperatorToBeReady cs subscriptionName channel catalogsource w
            = some ((none, some e), w3)) ∧
        (∀ c w3,
          WaitForClusterServiceVersionState cs subs.Status.InstalledCSV OperatorsNamespace
              IsCSVSucceeded w2 = some ((c, none), w3) →
          SubscribeAndWaitForOperatorToBeReady cs subscriptionName channel catalogsource w
            = some ((some subs, none), w3)) ∧
        (∀ r w3,
            SubscribeAndWaitForOperatorToBeReady cs subscriptionName channel catalogsource w
              = some (r, w3) →
          ∃ tail, w3 = w2 ++ tail ∧
            ∀ ev, ev ∈ tail →
              ev = Event.get Kind.clusterServiceVersion OperatorsNamespace
                  subs.Status.InstalledCSV
                ∨ ev = Event.sleep Interval))) ∧
    (∀ x e w1,
      UpdateSubscription cs subscriptionName channel w = some ((x, some e), w1) →
      UptadeSubscriptionAndWaitForOperatorToBeReady cs subscriptionName channel w
        = some ((none, some e), w1) ∧
      ∃ s, w1 = w ++ [Event.get Kind.subscription OperatorsNamespace subscriptionName,
        Event.update s]) ∧
    (∀ x w1,
      UpdateSubscription cs subscriptionName channel w = some ((x, none), w1) →
      (∀ st e w2,
        WaitForSubscriptionState cs subscriptionName OperatorsNamespace
            IsSubscriptionInstalledCSVPresent w1 = some ((st, some e), w2) →
        UptadeSubscriptionAndWaitForOperatorToBeReady cs subscriptionName channel w
          = some ((none, some e), w2) ∧
        World.gets w2 Kind.clusterServiceVersion = World.gets w Kind.clusterServiceVersion) ∧
      (∀ subs w2,
        WaitForSubscriptionState cs subscriptionName OperatorsNamespace
            IsSubscriptionInstalledCSVPresent w1 = some ((some subs, none), w2) →
        (∀ c e w3,
          WaitForClusterServiceVersionState cs subs.Status.InstalledCSV OperatorsNamespace
              IsCSVSucceeded w2 = some ((c, some e), w3) →
          UptadeSubscriptionAndWaitForOperatorToBeReady cs subscriptionName channel w
            = some ((none, some e), w3)) ∧
        (∀ c w3,
          WaitForClusterServiceVersionState cs subs.Status.InstalledCSV OperatorsNamespace
              IsCSVSucceeded w2 = some ((c, none), w3) →
          UptadeSubscriptionAndWaitForOperatorToBeReady cs subscriptionName channel w
            = some ((some subs, none), w3)) ∧
        (∀ r w3,
            UptadeSubscriptionAndWaitForOperatorToBeReady cs subscriptionName channel w
              = some (r, w3) →
          ∃ tail, w3 = w2 ++ tail ∧
            ∀ ev, ev ∈ tail →
              ev = Event.get Kind.clusterServiceVersion OperatorsNamespace
                  subs.Status.InstalledCSV
                ∨ ev = Event.sleep Interval))) := by
  have hsp := fun w1 => pollStages_spec cs subscriptionName w1
  refine ⟨?_, ?_, ?_, ?_⟩
  · intro x e w1 hc
    have hlog := createSubscription_log cs subscriptionName channel catalogsource w
    rw [hc] at hlog
    exact ⟨by rw [SubscribeAndWaitForOperatorToBeReady_eq, hc], hlog⟩
  · intro x w1 hc
    have hlog := createSubscription_log cs subscriptionName channel catalogsource w
    rw [hc] at hlog
    have hw : SubscribeAndWaitForOperatorToBeReady cs subscriptionName channel catalogsource w
        = pollStages cs subscriptionName w1 := by
      rw [SubscribeAndWaitForOperatorToBeReady_eq, hc]
    have hg : World.gets w1 Kind.clusterServiceVersion
        = World.gets w Kind.clusterServiceVersion := by
      have h1 : w1 = w ++ [Event.create (Subscription subscriptionName channel catalogsource)] :=
        hlog
      rw [h1, gets_append]
      simp [World.gets, Event.isGet]
    rw [hw]
    refine ⟨?_, (hsp w1).2⟩
    intro st e w2 h
    have := (hsp w1).1 st e w2 h
    exact ⟨this.1, by rw [this.2, hg]⟩
  · intro x e w1 hu
    exact ⟨by rw [UptadeSubscriptionAndWaitForOperatorToBeReady_eq, hu],
      UpdateSubscription_log cs subscriptionName channel w w1 _ hu⟩
  · intro x w1 hu
    have hw : UptadeSubscriptionAndWaitForOperatorToBeReady cs subscriptionName channel w
        = pollStages cs subscriptionName w1 := by
      rw [UptadeSubscriptionAndWaitForOperatorToBeReady_eq, hu]
    have hg : World.gets w1 Kind.clusterServiceVersion
        = World.gets w Kind.clusterServiceVersion := by
      obtain ⟨s, h1⟩ := UpdateSubscription_log cs subscriptionName channel w w1 _ hu
      rw [h1, gets_append]
      simp [World.gets, Event.isGet]
    rw [hw]
    refine ⟨?_, (hsp w1).2⟩
    intro st e w2 h
    have := (hsp w1).1 st e w2 h
    exact ⟨this.1, by rw [this.2, hg]⟩

/-- On the healthy cluster the subscription poll succeeds at its first probe. -/
theorem ready_sub_run (w1 : World) :
    WaitForSubscriptionState ready_clients "sub" OperatorsNamespace
        IsSubscriptionInstalledCSVPresent w1
      = some ((some subReady, none),
          w1 ++ [Event.get Kind.subscription OperatorsNamespace "sub"]) :=
  WaitForSubscriptionState_stop ready_clients "sub" OperatorsNamespace
    IsSubscriptionInstalledCSVPresent w1 0 true none (by omega)
    (fun i hi => absurd hi (by omega)) rfl (Or.inl rfl)

/-- On the healthy cluster the CSV poll succeeds at its first probe. -/
theorem ready_csv_run (w2 : World) :
    WaitForClusterServiceVersionState ready_clients subReady.Status.InstalledCSV
        OperatorsNamespace IsCSVSucceeded w2
      = some ((some csvSucceeded, none),
          w2 ++ [Event.get Kind.clusterServiceVersion OperatorsNamespace "csv"]) :=
  WaitForClusterServiceVersionState_stop ready_clients "csv" OperatorsNamespace
    IsCSVSucceeded w2 0 true none (by omega)
    (fun i hi => absurd hi (by omega)) rfl (Or.inl rfl)

/-- C10 at concrete inputs: a cluster that refuses Create and Update stops both
workflows at their first step, and on a healthy cluster both workflows run
their three stages in order and return the subscription. -/
theorem workflows_sequential_fail_fast_witness :
    (SubscribeAndWaitForOperatorToBeReady readonly_clients "sub" "stable" "catalog" []
        = some ((none, some errForbidden),
          [Event.create (Subscription "sub" "stable" "catalog")]) ∧
      [Event.create (Subscription "sub" "stable" "catalog")]
        = [] ++ [Event.create (Subscription "sub" "stable" "catalog")]) ∧
    SubscribeAndWaitForOperatorToBeReady ready_clients "sub" "stable" "catalog" []
      = some ((some subReady, none),
          [Event.create (Subscription "sub" "stable" "catalog")]
            ++ [Event.get Kind.subscription OperatorsNamespace "sub"]
            ++ [Event.get Kind.clusterServiceVersion OperatorsNamespace "csv"]) ∧
    (UptadeSubscriptionAndWaitForOperatorToBeReady readonly_clients "sub" "beta" []
        = some ((none, some errForbidden),
          [Event.get Kind.subscription OperatorsNamespace "sub", Event.update subBeta]) ∧
      ∃ s, [Event.get Kind.subscription OperatorsNamespace "sub", Event.update subBeta]
        = [] ++ [Event.get Kind.subscription OperatorsNamespace "sub", Event.update s]) ∧
    UptadeSubscriptionAndWaitForOperatorToBeReady ready_clients "sub" "beta" []
      = some ((some subReady, none),
          [Event.get Kind.subscription OperatorsNamespace "sub", Event.update subBeta]
            ++ [Event.get Kind.subscription OperatorsNamespace "sub"]
            ++ [Event.get Kind.clusterServiceVersion OperatorsNamespace "csv"]) :=
  ⟨(workflows_sequential_fail_fast readonly_clients "sub" "stable" "catalog" []).1
      none errForbidden _ rfl,
    (((workflows_sequential_fail_fast ready_clients "sub" "stable" "catalog" []).2.1
      (some (Subscription "sub" "stable" "catalog"))
      [Event.create (Subscription "sub" "stable" "catalog")] rfl).2
      subReady _ (ready_sub_run _)).2.1 (some csvSucceeded) _ (ready_csv_run _),
    (workflows_sequential_fail_fast readonly_clients "sub" "beta" "catalog" []).2.2.1
      none errForbidden _ rfl,
    (((workflows_sequential_fail_fast ready_clients "sub" "beta" "catalog" []).2.2.2
      (some subBeta)
      [Event.get Kind.subscription OperatorsNamespace "sub", Event.update subBeta] rfl).2
      subReady _ (ready_sub_run _)).2.1 (some csvSucceeded) _ (ready_csv_run _)⟩

/-! ### EnsureTektonAddonsStatusInstalled -/

/-- What the loop of the poll body computes: done exactly when every condition
is of type "InstallSucceeded" or has status "True"; never an error. -/
theorem EnsureTektonAddonsStatusInstalled_loop_eq (conds : List v1alpha1.Condition) :
    EnsureTektonAddonsStatusInstalled_loop conds
      = (conds.all (fun ac => ac.Type_ == "InstallSucceeded" || ac.Status == "True"), none) := by
  induction conds with
  | nil => rfl
  | cons ac rest ih =>
    by_cases h1 : ac.Type_ = "InstallSucceeded" <;> by_cases h2 : ac.Status = "True" <;>
      simp [EnsureTektonAddonsStatusInstalled_loop, ih, h1, h2]

/-- C11 (the code fails it): the poll body of `EnsureTektonAddonsStatusInstalled`
reports done on an empty condition list and on the list whose only condition is
InstallSucceeded with status "False", neither of which holds an InstallSucceeded
condition with status "True"; so with an addon whose install has failed, or
that has no condition yet, the body is done at its first run and the function
returns as if the addon were installed. -/
theorem EnsureTektonAddonsStatusInstalled_done_without_success (w : World) :
    EnsureTektonAddonsStatusInstalled_loop [] = (true, none) ∧
    EnsureTektonAddonsStatusInstalled_loop [{ Type_ := "InstallSucceeded", Status := "False" }]
      = (true, none) ∧
    (¬ ∃ c : v1alpha1.Condition,
      c ∈ [({ Type_ := "InstallSucceeded", Status := "False" } : v1alpha1.Condition)] ∧
        c.Type_ = "InstallSucceeded" ∧ c.Status = "True") ∧
    EnsureTektonAddonsStatusInstalled_condition installFailed_clients addonNames (w, ())
      = some ((true, none),
          (w ++ [Event.get Kind.tektonAddon "" "addon"]
            ++ [Event.sleep APIRetry, Event.get Kind.tektonAddon "" "addon"], ())) ∧
    EnsureTektonAddonsStatusInstalled_condition noConditions_clients addonNames (w, ())
      = some ((true, none),
          (w ++ [Event.get Kind.tektonAddon "" "addon"]
            ++ [Event.sleep APIRetry, Event.get Kind.tektonAddon "" "addon"], ())) ∧
    EnsureTektonAddonsStatusInstalled installFailed_clients addonNames w
      = some (w ++ [Event.get Kind.tektonAddon "" "addon"]
          ++ [Event.sleep APIRetry, Event.get Kind.tektonAddon "" "addon"]) := by
  have hticks : APITimeout / APIRetry = 239 + 1 := by decide
  have hexists : ∀ (clients : TektonAddonInterface) (a : v1alpha1.TektonAddon),
      (∀ n name, clients.Get n name = (some a, none)) →
      EnsureTektonAddonExists clients addonNames w
        = some ((some a, none),
            w ++ [Event.get Kind.tektonAddon "" "addon"]
              ++ [Event.sleep APIRetry, Event.get Kind.tektonAddon "" "addon"]) := by
    intro clients a h
    simp [EnsureTektonAddonExists, Poll, hticks, WaitFor, TektonAddonInterface.get, h, addonNames]
  have h1 := hexists installFailed_clients addonInstallFailed (fun _ _ => rfl)
  have h2 := hexists noConditions_clients addonNoConditions (fun _ _ => rfl)
  have c1 : EnsureTektonAddonsStatusInstalled_condition installFailed_clients addonNames (w, ())
      = some ((true, none),
          (w ++ [Event.get Kind.tektonAddon "" "addon"]
            ++ [Event.sleep APIRetry, Event.get Kind.tektonAddon "" "addon"], ())) := by
    simp only [EnsureTektonAddonsStatusInstalled_condition, h1, assert_FailOnError]
    rfl
  have c2 : EnsureTektonAddonsStatusInstalled_condition noConditions_clients addonNames (w, ())
      = some ((true, none),
          (w ++ [Event.get Kind.tektonAddon "" "addon"]
            ++ [Event.sleep APIRetry, Event.get Kind.tektonAddon "" "addon"], ())) := by
    simp only [EnsureTektonAddonsStatusInstalled_condition, h2, assert_FailOnError]
    rfl
  refine ⟨rfl, by decide, by decide, c1, c2, ?_⟩
  simp only [EnsureTektonAddonsStatusInstalled, PollImmediate, c1, assert_FailOnError]

/-- The closure of `EnsureTektonAddonExists` is an instance of the shared shape. -/
theorem EnsureTektonAddonExists_eq (clients : TektonAddonInterface) (names : ResourceNames)
    (w : World) :
    EnsureTektonAddonExists clients names w =
      match WaitFor APIRetry
          (probeCond Kind.tektonAddon "" names.TektonAddon
            (fun n => clients.Get n names.TektonAddon) existsState (fun r _ => r))
          (APITimeout / APIRetry)
          (w ++ [Event.get Kind.tektonAddon "" names.TektonAddon],
            clients.Get (World.gets w Kind.tektonAddon) names.TektonAddon) with
      | none => none
      | some (err, (w1, (ks, _))) => some ((ks, err), w1) := by
  have hfn : (fun (s : World × GetResult v1alpha1.TektonAddon) =>
        let g := clients.get names.TektonAddon s.1
        match g.1.2 with
        | some e =>
          if IsNotFound (some e) then some ((false, none), (g.2, (g.1.1, g.1.2)))
          else some ((false, some e), (g.2, (g.1.1, g.1.2)))
        | none => some ((true, none), (g.2, (g.1.1, g.1.2))))
      = probeCond Kind.tektonAddon "" names.TektonAddon
          (fun n => clients.Get n names.TektonAddon) existsState (fun r _ => r) := by
    funext s
    simp only [probeCond, existsState, TektonAddonInterface.get]
    generalize clients.Get (World.gets s.1 Kind.tektonAddon) names.TektonAddon = g
    obtain ⟨a, err⟩ := g
    cases err with
    | none => rfl
    | some e =>
      by_cases hn : IsNotFound (some e) = true
      · simp [hn]
      · simp [hn]
  unfold EnsureTektonAddonExists Poll
  simp only [hfn]
  rfl

/-- When the addon does not exist, `EnsureTektonAddonExists` creates nothing: it
Gets until the timeout and returns the nil addon with the timeout error; the
log holds Gets and sleeps only. -/
theorem EnsureTektonAddonExists_never_creates (w : World) :
    EnsureTektonAddonExists absent_clients addonNames w
      = some ((none, some ErrWaitTimeout),
          w ++ [Event.get Kind.tektonAddon "" "addon"]
            ++ ticksLog (Event.get Kind.tektonAddon "" "addon") APIRetry 240
            ++ [Event.sleep APIRetry]) := by
  rw [EnsureTektonAddonExists_eq, ticks_config,
    WaitFor_timeout Kind.tektonAddon "" addonNames.TektonAddon
      (fun n => absent_clients.Get n addonNames.TektonAddon) existsState (fun r _ => r)
      APIRetry 240 _ _ (fun _ _ => rfl)]
  rfl

end ReleaseTests
